import Mathlib

/-!
Make-Your-Own-LLM frontend: session coordination

A shallow embedding of the state handling in `frontend/src/components/ChatInterface.jsx`
and `frontend/src/App.jsx`.

React state is a record; every handler is a function on that record.  A handler that
reads a variable of the render in which it was created (instead of using a functional
state update) reads the value that variable had in that render, so the values a
WebSocket's callbacks closed over are stored with the socket.  `new Date()` is the
parameter `now`.
-/

namespace MakeYourOwnLLM

/-! ## ChatInterface.jsx : data -/

/-- The `type` of an entry of `messages`: `'user'` or `'assistant'`. -/
inductive Role where
  | user
  | assistant
  deriving DecidableEq, Repr

/-- An entry of `messages`: `{ type, content, timestamp }`. -/
structure Message where
  type : Role
  content : String
  timestamp : Nat
  deriving DecidableEq, Repr

/-- The state `chatConfig`.  `temperature` counts tenths (the slider runs from 0.1 to 1.0
in steps of 0.1), so the initial `0.7` is `7`. -/
structure ChatConfig where
  temperature : Nat
  maxTokens : Nat
  deriving DecidableEq, Repr

/-- The state `metrics`; a field that was never set, or was set from an absent payload
field, is `none` (JavaScript `undefined`). -/
structure Metrics where
  latency : Option Nat
  inputTokens : Option Nat
  outputTokens : Option Nat
  totalTokens : Option Nat
  deriving DecidableEq, Repr

/-- A socket made by `connectWebSocket`.  `project` is the `currentProject` in its URL and
`streamingResponse` the value of the variable `streamingResponse` in the render whose
`connectWebSocket` installed the callbacks: `ws.onmessage` reads that variable directly
(`const finalResponse = streamingResponse`). -/
structure WebSocket where
  id : Nat
  project : String
  streamingResponse : String
  deriving DecidableEq, Repr

/-- The props and state of one mounted `ChatInterface`. -/
structure ChatInterface where
  currentProject : String
  messages : List Message
  inputMessage : String
  isLoading : Bool
  isModelLoaded : Bool
  wsConnection : Option WebSocket
  streamingResponse : String
  chatConfig : ChatConfig
  metrics : Metrics
  deriving DecidableEq, Repr

/-- The object `JSON.parse(event.data)` of a server message, by the fields the handler
reads; an absent field is `none`. -/
structure ServerMessage where
  type : Option String
  token : Option String
  latency_ms : Option Nat
  input_tokens : Option Nat
  output_tokens : Option Nat
  total_tokens : Option Nat
  error : Option String
  deriving DecidableEq, Repr

/-- The object passed to `wsConnection.send(JSON.stringify(..))`. -/
structure WireRequest where
  message : String
  temperature : Nat
  max_tokens : Nat
  deriving DecidableEq, Repr

/-- The response of `POST /chat-api/load-model` as `loadModel` sees it: `response.ok`,
a response that is not ok (with the `detail` of its body), or a rejected `fetch`. -/
inductive LoadResponse where
  | ok
  | notOk (detail : Option String)
  | failed (message : String)
  deriving DecidableEq, Repr

/-- What a handler does besides setting state. -/
inductive Effect where
  /-- The call `fetch('/chat-api/load-model', ..)` with body `{ project_slug }`. -/
  | fetchLoadModel (project_slug : String)
  /-- The call `new WebSocket(wsUrl)`. -/
  | create (ws : WebSocket)
  /-- The call `wsConnection.close()`. -/
  | close (ws : WebSocket)
  /-- The call `wsConnection.send(JSON.stringify(request))`. -/
  | send (ws : WebSocket) (request : WireRequest)
  /-- The call `alert(text)`. -/
  | alert (text : String)
  deriving DecidableEq, Repr

namespace ChatInterface

/-- The state of a freshly mounted component (the `useState` initial values). -/
def initial (currentProject : String) : ChatInterface :=
  { currentProject := currentProject
    messages := []
    inputMessage := ""
    isLoading := false
    isModelLoaded := false
    wsConnection := none
    streamingResponse := ""
    chatConfig := { temperature := 7, maxTokens := 150 }
    metrics := { latency := none, inputTokens := none, outputTokens := none,
                 totalTokens := none } }

/-- The code points `String.prototype.trim` removes: white space and line terminators. -/
def isTrimmed (c : Char) : Bool :=
  let n := c.toNat
  n = 0x9 || n = 0xA || n = 0xB || n = 0xC || n = 0xD || n = 0x20 || n = 0xA0 ||
  n = 0x1680 || (0x2000 ≤ n && n ≤ 0x200A) || n = 0x2028 || n = 0x2029 || n = 0x202F ||
  n = 0x205F || n = 0x3000 || n = 0xFEFF

/-- `s.trim()`. -/
def trim (s : String) : String :=
  ⟨((s.data.dropWhile isTrimmed).reverse.dropWhile isTrimmed).reverse⟩

/-- `prev + data.token`: an absent token is `undefined`, which concatenates as text. -/
def tokenText (data : ServerMessage) : String :=
  data.token.getD "undefined"

/-- The concatenation `t1 + t2 + ... + tn` of token texts, in order. -/
def concat : List String → String
  | [] => ""
  | t :: ts => t ++ concat ts

/-- The handler `ws.onmessage` of the socket `ws`, after `JSON.parse`. -/
def onmessage (ws : WebSocket) (data : ServerMessage) (now : Nat) (s : ChatInterface) :
    ChatInterface :=
  if data.type = some "message_received" then
    { s with isLoading := true, streamingResponse := "" }
  else if data.type = some "token" then
    { s with streamingResponse := s.streamingResponse ++ tokenText data }
  else if data.type = some "complete" then
    let finalResponse := ws.streamingResponse
    { s with
      messages := s.messages ++
        [{ type := .assistant, content := finalResponse, timestamp := now }]
      streamingResponse := ""
      isLoading := false
      metrics := { latency := data.latency_ms, inputTokens := data.input_tokens,
                   outputTokens := data.output_tokens, totalTokens := data.total_tokens } }
  else if data.type = some "error" then
    { s with isLoading := false, streamingResponse := "" }
  else s

/-- The handlers run for a sequence of server messages, each with its arrival time. -/
def onmessages (ws : WebSocket) (events : List (ServerMessage × Nat)) (s : ChatInterface) :
    ChatInterface :=
  events.foldl (fun acc e => onmessage ws e.1 e.2 acc) s

/-- `ws.onopen`. -/
def onopen (ws : WebSocket) (s : ChatInterface) : ChatInterface :=
  { s with wsConnection := some ws }

/-- `ws.onclose`. -/
def onclose (s : ChatInterface) : ChatInterface :=
  { s with wsConnection := none }

/-- `ws.onerror`. -/
def onerror (s : ChatInterface) : ChatInterface :=
  { s with wsConnection := none }

/-- The input's `onChange`: `setInputMessage(e.target.value)`. -/
def setInputMessage (value : String) (s : ChatInterface) : ChatInterface :=
  { s with inputMessage := value }

/-- The function `sendMessage`: the next state and what it transmits.  Past the guard
`wsConnection` is a socket, so the last branch is never taken. -/
def sendMessage (s : ChatInterface) (now : Nat) : ChatInterface × List Effect :=
  if trim s.inputMessage = "" ∨ s.isLoading = true ∨ s.wsConnection = none then (s, [])
  else
    let userMessage : Message :=
      { type := .user, content := trim s.inputMessage, timestamp := now }
    match s.wsConnection with
    | some ws =>
      ({ s with messages := s.messages ++ [userMessage], inputMessage := "" },
       [.send ws { message := trim s.inputMessage
                   temperature := s.chatConfig.temperature
                   max_tokens := s.chatConfig.maxTokens }])
    | none => (s, [])

/-- The function `connectWebSocket` of the render `r`: it closes the render's
`wsConnection`, if any, and creates a socket whose callbacks close over the render's
variables. -/
def connectWebSocket (r : ChatInterface) (id : Nat) : WebSocket × List Effect :=
  let ws : WebSocket :=
    { id := id, project := r.currentProject, streamingResponse := r.streamingResponse }
  match r.wsConnection with
  | some old => (ws, [.close old, .create ws])
  | none => (ws, [.create ws])

/-- The synchronous part of `loadModel`, up to the `await fetch`. -/
def loadModelStart (s : ChatInterface) : ChatInterface × List Effect :=
  if s.currentProject = "" then (s, [])
  else ({ s with isLoading := true }, [.fetchLoadModel s.currentProject])

/-- The rest of `loadModel` of the render `r`, run on the state `s` when the response
arrives; `id` names the socket that `connectWebSocket` creates. -/
def loadModelFinish (r : ChatInterface) (response : LoadResponse) (id : Nat)
    (s : ChatInterface) : ChatInterface × List Effect :=
  match response with
  | .ok => ({ s with isModelLoaded := true, isLoading := false }, (connectWebSocket r id).2)
  | .notOk detail =>
    ({ s with isLoading := false },
     [.alert ("Failed to load model: " ++ detail.getD "undefined")])
  | .failed message =>
    ({ s with isLoading := false }, [.alert ("Failed to load model: " ++ message)])

/-- A render with a new `currentProject` prop followed by its effect
`useEffect(() => { if (currentProject && !isModelLoaded) loadModel() }, [currentProject])`. -/
def changeProject (project : String) (s : ChatInterface) : ChatInterface × List Effect :=
  let s1 := { s with currentProject := project }
  if project ≠ "" ∧ s1.isModelLoaded = false then loadModelStart s1 else (s1, [])

end ChatInterface

open ChatInterface

/-! ## App.jsx : the training-status poll -/

/-- The values of `activeTab`. -/
inductive Tab where
  | upload
  | train
  | progress
  | chat
  deriving DecidableEq, Repr

/-- The `progress` object of a training-status response, by the field `onSuccess`
reads; an absent field is `none`. -/
structure Progress where
  completed : Option Bool
  deriving DecidableEq, Repr

/-- The body of a `GET /api/training-status` response; an absent field is `none`. -/
structure TrainingStatus where
  is_training : Option Bool
  project : Option String
  progress : Option Progress
  deriving DecidableEq, Repr

/-- The state of `App`.  `isTraining` holds whatever `setIsTraining` was given, so
`none` is `undefined`. -/
structure App where
  currentProject : String
  activeTab : Tab
  isTraining : Option Bool
  deriving DecidableEq, Repr

/-- A call of one of the state setters of `App`. -/
inductive SetState where
  | setIsTraining (value : Option Bool)
  | setActiveTab (tab : Tab)
  | setCurrentProject (project : String)
  deriving DecidableEq, Repr

namespace App

/-- The state of a freshly mounted `App`. -/
def initial : App :=
  { currentProject := "", activeTab := .upload, isTraining := some false }

/-- The state after a setter call. -/
def set (s : App) : SetState → App
  | .setIsTraining value => { s with isTraining := value }
  | .setActiveTab tab => { s with activeTab := tab }
  | .setCurrentProject project => { s with currentProject := project }

/-- The truthiness of `data.progress?.completed`. -/
def completed (data : TrainingStatus) : Bool :=
  match data.progress with
  | some p => p.completed = some true
  | none => false

/-- The setter calls of `onSuccess(data)` of the `training-status` query, in order. -/
def onSuccessCalls (data : TrainingStatus) : List SetState :=
  if data.is_training = some false ∧ completed data = true then
    [.setIsTraining data.is_training, .setActiveTab .chat]
  else [.setIsTraining data.is_training]

/-- The callback `onSuccess(data)` of the `training-status` query. -/
def onSuccess (data : TrainingStatus) (s : App) : App :=
  (onSuccessCalls data).foldl set s

/-- The setter calls made while the poll responses `polls` arrive, in order. -/
def pollCalls (polls : List TrainingStatus) : List SetState :=
  polls.flatMap onSuccessCalls

/-- The state after the poll responses `polls`. -/
def poll (polls : List TrainingStatus) (s : App) : App :=
  polls.foldl (fun acc data => onSuccess data acc) s

/-- How often the polls switched the active tab to `'chat'`: the "training complete"
effect. -/
def trainingCompleteCount (polls : List TrainingStatus) : Nat :=
  (pollCalls polls).count (.setActiveTab .chat)

end App

/-! ## Server messages and a session used in the examples -/

namespace ServerMessage

/-- A message with no field at all: `{}`. -/
def empty : ServerMessage :=
  { type := none, token := none, latency_ms := none, input_tokens := none,
    output_tokens := none, total_tokens := none, error := none }

/-- The message `{type: "message_received"}`. -/
def messageReceived : ServerMessage :=
  { empty with type := some "message_received" }

/-- The message `{type: "token", token}`. -/
def ofToken (token : String) : ServerMessage :=
  { empty with type := some "token", token := some token }

/-- The message `{type: "complete", latency_ms, input_tokens, output_tokens, total_tokens}`. -/
def complete (latency input output total : Nat) : ServerMessage :=
  { empty with type := some "complete", latency_ms := some latency,
               input_tokens := some input, output_tokens := some output,
               total_tokens := some total }

/-- The message `{type: "error", error}`. -/
def ofError (error : String) : ServerMessage :=
  { empty with type := some "error", error := some error }

end ServerMessage

namespace Scenario

/-- The render in which the project `stories` is first selected; its effect calls
`loadModel`. -/
def selected : ChatInterface :=
  (changeProject "stories" (initial "")).1

/-- The socket that this render's `connectWebSocket` creates. -/
def socket : WebSocket :=
  (connectWebSocket selected 1).1

/-- The state once the model is loaded and the socket is open. -/
def ready : ChatInterface :=
  onopen socket (loadModelFinish selected .ok 1 selected).1

/-- The state after the user has sent `Tell me a story` at time 10. -/
def asked : ChatInterface :=
  (sendMessage (setInputMessage "Tell me a story" ready) 10).1

/-- The server's answer up to the last token. -/
def streamed : List (ServerMessage × Nat) :=
  [(.messageReceived, 11), (.ofToken "Once", 12), (.ofToken " upon", 13),
   (.ofToken " a time.", 14)]

/-- The completion message of the answer. -/
def completion : ServerMessage × Nat :=
  (.complete 120 5 4 9, 15)

/-- The state while the answer is streaming: the last token has arrived, `complete`
has not. -/
def streaming : ChatInterface :=
  onmessages socket streamed asked

/-- The state of `ready` after the server has sent a token on its own, with no turn
awaiting a response. -/
def stray : ChatInterface :=
  onmessage socket (.ofToken "Hello") 5 ready

end Scenario

/-- The status `{is_training: true}` of a running training. -/
def statusRunning : TrainingStatus :=
  { is_training := some true, project := some "stories",
    progress := some { completed := none } }

/-- The terminal status `{is_training: false, progress: {completed: true}}`. -/
def statusCompleted : TrainingStatus :=
  { is_training := some false, project := some "stories",
    progress := some { completed := some true } }

/-! ## App.jsx : cadence, tabs and the status fetch -/

namespace App

/-- The option `refetchInterval: isTraining ? 1000 : 5000` of the `training-status`
query, in milliseconds. -/
def refetchInterval (s : App) : Nat :=
  if s.isTraining = some true then 1000 else 5000

/-- The setter calls of the callback `onTrainingStarted` given to `TrainingWizard`. -/
def onTrainingStartedCalls : List SetState :=
  [.setIsTraining (some true), .setActiveTab .progress]

/-- The callback `onTrainingStarted`. -/
def onTrainingStarted (s : App) : App :=
  onTrainingStartedCalls.foldl set s

/-- The prop `disabled={!isTraining}` of the Progress tab. -/
def progressTabDisabled (s : App) : Bool :=
  !(s.isTraining == some true)

/-- The prop `disabled={!currentProject}` of the Chat tab. -/
def chatTabDisabled (s : App) : Bool :=
  s.currentProject == ""

end App

/-- The outcome of the query function
`fetch('/api/training-status').then(res => res.json())`: the promise rejects (the fetch
fails or the body is not JSON), or it resolves with the parsed body, whatever `res.ok`
is: the status of the response is not looked at. -/
inductive StatusFetch where
  | rejected
  | resolved (ok : Bool) (data : TrainingStatus)
  deriving DecidableEq, Repr

/-- The body `{detail: ..}` of a backend error response: no `is_training`, no `project`,
no `progress`. -/
def statusErrorBody : TrainingStatus :=
  { is_training := none, project := none, progress := none }

/-- An `App` in which the project `stories` is training and the Progress tab is shown. -/
def appTraining : App :=
  App.onTrainingStarted (App.set App.initial (.setCurrentProject "stories"))

/-- A body without `is_training` whose `progress` says completed:
`{progress: {completed: true}}`. -/
def statusCompletedBody : TrainingStatus :=
  { is_training := none, project := none, progress := some { completed := some true } }

/-! ## DataUpload.jsx -/

/-- A `File` of a drop or of the file picker, by the fields the component reads. -/
structure File where
  name : String
  size : Nat
  deriving DecidableEq, Repr

/-- The state of `DataUpload`. -/
structure DataUpload where
  dragActive : Bool
  files : List File
  uploading : Bool
  projectSlug : String
  deriving DecidableEq, Repr

/-- How the backend answers one request, as the caller's `try` block sees it:
`response.ok`, a response that is not ok (with the `detail` of its body), or an
exception with its message (a rejected `fetch`, or an error body that is not JSON). -/
inductive ApiResponse where
  | ok
  | notOk (detail : Option String)
  | failed (message : String)
  deriving DecidableEq, Repr

/-- The expression `error.detail || fallback`: an absent or empty detail is falsy. -/
def detailOr (detail : Option String) (fallback : String) : String :=
  match detail with
  | some text => if text = "" then fallback else text
  | none => fallback

/-- What `uploadFiles` does besides setting state. -/
inductive UploadEffect where
  /-- The call `alert(text)`. -/
  | alert (text : String)
  /-- The call `fetch('/api/upload-data?project_slug=..', ..)` with the file as body. -/
  | fetchUpload (project_slug : String) (file : File)
  /-- The call `onProjectChange(projectSlug)`. -/
  | onProjectChange (project : String)
  /-- The call `onDataUploaded()`. -/
  | onDataUploaded
  deriving DecidableEq, Repr

namespace DataUpload

/-- The state of a freshly mounted component: `projectSlug` starts as
`currentProject || ''`. -/
def initial (currentProject : String) : DataUpload :=
  { dragActive := false, files := [], uploading := false, projectSlug := currentProject }

/-- `name.split('.').pop()`: the text after the last `.`, the whole name when it has
none. -/
def lastSegment (name : String) : String :=
  ⟨(name.data.reverse.takeWhile fun c => c ≠ '.').reverse⟩

/-- `text.toLowerCase()`, on the letters `A` to `Z`; no other character becomes one of
the letters of `txt`, `jsonl`, `csv`, `pdf`. -/
def toLowerCase (text : String) : String :=
  ⟨text.data.map Char.toLower⟩

/-- The filter of `handleDrop`:
`['txt', 'jsonl', 'csv', 'pdf'].includes(file.name.split('.').pop().toLowerCase())`. -/
def isValidFile (file : File) : Bool :=
  decide (toLowerCase (lastSegment file.name) ∈ ["txt", "jsonl", "csv", "pdf"])

/-- The handler `handleDrag` for an event of the given `type`. -/
def handleDrag (type : String) (s : DataUpload) : DataUpload :=
  if type = "dragenter" ∨ type = "dragover" then { s with dragActive := true }
  else if type = "dragleave" then { s with dragActive := false }
  else s

/-- The handler `handleDrop` for the dropped files `e.dataTransfer.files`. -/
def handleDrop (droppedFiles : List File) (s : DataUpload) : DataUpload :=
  let validFiles := droppedFiles.filter isValidFile
  { s with dragActive := false, files := s.files ++ validFiles }

/-- The handler `handleFileInput` for the picked files `e.target.files`. -/
def handleFileInput (selectedFiles : List File) (s : DataUpload) : DataUpload :=
  { s with files := s.files ++ selectedFiles }

/-- The function `removeFile`: `prev.filter((_, i) => i !== index)`. -/
def removeFile (index : Nat) (s : DataUpload) : DataUpload :=
  { s with files := s.files.eraseIdx index }

/-- The input's `onChange`: `setProjectSlug(e.target.value)`. -/
def setProjectSlug (value : String) (s : DataUpload) : DataUpload :=
  { s with projectSlug := value }

/-- The loop `for (const file of files)` of `uploadFiles`: each request is awaited
before the next file is looked at, and a response that is not ok throws out of the loop.
`respond i` is the answer to the request number `i` (from 0).  The result is the
requests made and, when the loop threw, the message of the error. -/
def uploadLoop (projectSlug : String) (respond : Nat → ApiResponse) :
    Nat → List File → List UploadEffect × Option String
  | _, [] => ([], none)
  | i, file :: rest =>
    match respond i with
    | .ok =>
      let later := uploadLoop projectSlug respond (i + 1) rest
      (.fetchUpload projectSlug file :: later.1, later.2)
    | .notOk detail => ([.fetchUpload projectSlug file], some (detailOr detail "Upload failed"))
    | .failed message => ([.fetchUpload projectSlug file], some message)

/-- The function `uploadFiles`, run to its end against the answers `respond`. -/
def uploadFiles (respond : Nat → ApiResponse) (s : DataUpload) :
    DataUpload × List UploadEffect :=
  if ChatInterface.trim s.projectSlug = "" then (s, [.alert "Please enter a project name"])
  else if s.files.length = 0 then (s, [.alert "Please select files to upload"])
  else
    match uploadLoop s.projectSlug respond 0 s.files with
    | (requests, none) =>
      ({ s with files := [], uploading := false },
       requests ++ [.onProjectChange s.projectSlug, .onDataUploaded,
                    .alert "Files uploaded successfully!"])
    | (requests, some message) =>
      ({ s with uploading := false }, requests ++ [.alert ("Upload failed: " ++ message)])

/-- The files of the upload requests among the effects, in the order of the requests. -/
def submitted : List UploadEffect → List File
  | [] => []
  | .fetchUpload _ file :: rest => file :: submitted rest
  | _ :: rest => submitted rest

end DataUpload

/-- Answers in which the request number `k` (from 0) is refused and every other one is
accepted. -/
def refuseAt (k : Nat) (i : Nat) : ApiResponse :=
  if i = k then .notOk (some "unsupported file") else .ok

/-- Three text files picked for the project `stories`. -/
def threeFiles : DataUpload :=
  DataUpload.handleFileInput
    [{ name := "a.txt", size := 10 }, { name := "b.csv", size := 20 },
     { name := "c.pdf", size := 30 }]
    (DataUpload.setProjectSlug "stories" (DataUpload.initial ""))

/-! ## TrainingWizard.jsx -/

/-- The state `config`.  `learningRate` counts hundred-thousandths (the choices are 1e-5,
5e-5 and 1e-4) and `temperature` counts tenths. -/
structure TrainingConfig where
  modelSize : String
  epochs : Nat
  learningRate : Nat
  useCase : String
  temperature : Nat
  deriving DecidableEq, Repr

/-- The prop `currentProject` and the state of `TrainingWizard`. -/
structure TrainingWizard where
  currentProject : String
  config : TrainingConfig
  isStarting : Bool
  deriving DecidableEq, Repr

/-- What `startTraining` and `continueTraining` do besides setting state. -/
inductive WizardEffect where
  /-- The call `alert(text)`. -/
  | alert (text : String)
  /-- The call `fetch('/api/start-training', ..)` with the body
  `{ project_slug, model_size, epochs, learning_rate, use_case, temperature }`. -/
  | fetchStartTraining (project_slug : String) (config : TrainingConfig)
  /-- The call `fetch('/api/continue-training', ..)` with the body
  `{ project_slug, additional_epochs }`. -/
  | fetchContinueTraining (project_slug : String) (additional_epochs : Nat)
  /-- The call `onTrainingStarted()`. -/
  | onTrainingStarted
  deriving DecidableEq, Repr

namespace WizardEffect

/-- Whether the effect is a request to the backend. -/
def isRequest : WizardEffect → Bool
  | .fetchStartTraining _ _ => true
  | .fetchContinueTraining _ _ => true
  | _ => false

end WizardEffect

namespace TrainingWizard

/-- The state of a freshly mounted component. -/
def initial (currentProject : String) : TrainingWizard :=
  { currentProject := currentProject
    config := { modelSize := "toy", epochs := 1, learningRate := 5, useCase := "general",
                temperature := 7 }
    isStarting := false }

/-- The function `startTraining`, run to its end against the answer `response`. -/
def startTraining (response : ApiResponse) (s : TrainingWizard) :
    TrainingWizard × List WizardEffect :=
  if s.currentProject = "" then (s, [.alert "Please select a project first"])
  else
    match response with
    | .ok =>
      ({ s with isStarting := false },
       [.fetchStartTraining s.currentProject s.config, .onTrainingStarted])
    | .notOk detail =>
      ({ s with isStarting := false },
       [.fetchStartTraining s.currentProject s.config,
        .alert ("Failed to start training: " ++ detailOr detail "Failed to start training")])
    | .failed message =>
      ({ s with isStarting := false },
       [.fetchStartTraining s.currentProject s.config,
        .alert ("Failed to start training: " ++ message)])

/-- The function `continueTraining`, run to its end against the answer `response`. -/
def continueTraining (response : ApiResponse) (s : TrainingWizard) :
    TrainingWizard × List WizardEffect :=
  if s.currentProject = "" then (s, [.alert "Please select a project first"])
  else
    match response with
    | .ok =>
      ({ s with isStarting := false },
       [.fetchContinueTraining s.currentProject 1, .onTrainingStarted])
    | .notOk detail =>
      ({ s with isStarting := false },
       [.fetchContinueTraining s.currentProject 1,
        .alert ("Failed to continue training: " ++
          detailOr detail "Failed to continue training")])
    | .failed message =>
      ({ s with isStarting := false },
       [.fetchContinueTraining s.currentProject 1,
        .alert ("Failed to continue training: " ++ message)])

end TrainingWizard

namespace App

/-- The effects of the wizard on `App`: `onTrainingStarted` is the callback of `App`, the
other effects do not touch its state. -/
def afterWizard (effects : List WizardEffect) (s : App) : App :=
  effects.foldl (fun acc effect =>
    match effect with
    | .onTrainingStarted => onTrainingStarted acc
    | _ => acc) s

end App

/-- A file that is none of the supported kinds. -/
def programFile : File :=
  { name := "setup.exe", size := 4096 }

/-! ## ChatInterface.jsx : the component with its requests and sockets -/

namespace Effect

/-- Whether the effect is a call `new WebSocket(..)`. -/
def isCreate : Effect → Bool
  | .create _ => true
  | _ => false

/-- Whether the effect is a call `wsConnection.close()`. -/
def isClose : Effect → Bool
  | .close _ => true
  | _ => false

end Effect

namespace ChatInterface

/-- Whether the view with the button `Load Model` is rendered: a project is selected
(`if (!currentProject) return ..` comes first) and `!isModelLoaded && !isLoading`. -/
def loadButtonShown (s : ChatInterface) : Bool :=
  s.currentProject != "" && (!s.isModelLoaded && !s.isLoading)

/-- Whether the text input is rendered and enabled: a project is selected, the view with
the button is not shown, and not `disabled={isLoading || !isModelLoaded}`. -/
def inputEnabled (s : ChatInterface) : Bool :=
  s.currentProject != "" && !loadButtonShown s && !(s.isLoading || !s.isModelLoaded)

end ChatInterface

/-- A mounted `ChatInterface` together with what it has outstanding: the renders whose
`loadModel` awaits its response, the sockets it created that are still connecting, those
that are open, those whose `close()` was called, the effects so far, and the number of
the next socket. -/
structure Session where
  ui : ChatInterface
  loading : List ChatInterface
  connecting : List WebSocket
  opened : List WebSocket
  closing : List WebSocket
  effects : List Effect
  nextId : Nat
  deriving DecidableEq, Repr

/-- What can happen to a mounted `ChatInterface`. -/
inductive Event where
  /-- The prop `currentProject` changes. -/
  | selectProject (project : String)
  /-- A click on the button `Load Model`. -/
  | clickLoadModel
  /-- The answer to the pending load-model request number `index`. -/
  | loadResponse (index : Nat) (response : LoadResponse)
  /-- The socket is connected: its `onopen` runs. -/
  | socketOpen (ws : WebSocket)
  /-- The socket is closed: its `onclose` runs. -/
  | socketClose (ws : WebSocket)
  /-- The socket reports an error: its `onerror` runs. -/
  | socketError (ws : WebSocket)
  /-- The socket delivers a message: its `onmessage` runs. -/
  | socketMessage (ws : WebSocket) (data : ServerMessage) (now : Nat)
  /-- The user edits the text input. -/
  | typeInput (text : String)
  /-- The user clicks the send button or presses Enter: `sendMessage` runs. -/
  | send (now : Nat)
  deriving DecidableEq, Repr

namespace Session

/-- The session of a component mounted with no project selected. -/
def initial : Session :=
  { ui := ChatInterface.initial "", loading := [], connecting := [], opened := [],
    closing := [], effects := [], nextId := 0 }

/-- One effect carried out: a created socket starts connecting, a socket whose `close()`
is called leaves the connecting and the open sockets; every effect is recorded. -/
def performOne (s : Session) (effect : Effect) : Session :=
  match effect with
  | .create ws =>
    { s with connecting := s.connecting ++ [ws], nextId := s.nextId + 1,
             effects := s.effects ++ [effect] }
  | .close ws =>
    { s with connecting := s.connecting.erase ws, opened := s.opened.erase ws,
             closing := s.closing ++ [ws], effects := s.effects ++ [effect] }
  | _ => { s with effects := s.effects ++ [effect] }

/-- The effects of a handler carried out in order. -/
def perform (effects : List Effect) (s : Session) : Session :=
  effects.foldl performOne s

/-- One event.  An event that cannot happen in the state (the answer to a request that
is not pending, a callback of a socket the session does not have, an edit of a disabled
input) leaves the state as it is. -/
def step (e : Event) (s : Session) : Session :=
  match e with
  | .selectProject project =>
    if project = s.ui.currentProject then s
    else
      let r : ChatInterface := { s.ui with currentProject := project }
      let next := changeProject project s.ui
      perform next.2
        { s with ui := next.1
                 loading := if next.2 = [] then s.loading else s.loading ++ [r] }
  | .clickLoadModel =>
    if loadButtonShown s.ui = true then
      let next := loadModelStart s.ui
      perform next.2 { s with ui := next.1, loading := s.loading ++ [s.ui] }
    else s
  | .loadResponse index response =>
    match s.loading[index]? with
    | none => s
    | some r =>
      let next := loadModelFinish r response s.nextId s.ui
      perform next.2 { s with ui := next.1, loading := s.loading.eraseIdx index }
  | .socketOpen ws =>
    if ws ∈ s.connecting then
      { s with connecting := s.connecting.erase ws, opened := s.opened ++ [ws],
               ui := onopen ws s.ui }
    else s
  | .socketClose ws =>
    if ws ∈ s.connecting ∨ ws ∈ s.opened ∨ ws ∈ s.closing then
      { s with connecting := s.connecting.erase ws, opened := s.opened.erase ws,
               closing := s.closing.erase ws, ui := onclose s.ui }
    else s
  | .socketError ws =>
    if ws ∈ s.connecting ∨ ws ∈ s.opened then { s with ui := onerror s.ui } else s
  | .socketMessage ws data now =>
    if ws ∈ s.opened then { s with ui := onmessage ws data now s.ui } else s
  | .typeInput text =>
    if inputEnabled s.ui = true then { s with ui := setInputMessage text s.ui } else s
  | .send now =>
    let next := sendMessage s.ui now
    perform next.2 { s with ui := next.1 }

/-- The events of a list one after the other. -/
def run (events : List Event) (s : Session) : Session :=
  events.foldl (fun acc e => step e acc) s

/-- While no model is loaded the session has no socket and no stored connection. -/
def Inv (s : Session) : Prop :=
  s.ui.isModelLoaded = false →
    s.connecting = [] ∧ s.opened = [] ∧ s.ui.wsConnection = none

end Session

namespace Scenario

/-- The socket of the first load, for the project `stories`. -/
def first : WebSocket :=
  { id := 0, project := "stories", streamingResponse := "" }

/-- The socket of the second load, for the project `poems`. -/
def second : WebSocket :=
  { id := 1, project := "poems", streamingResponse := "" }

/-- The project `stories` is selected and, before its model is loaded, the project
`poems`; both load-model requests are answered ok and both sockets connect. -/
def twoLoads : List Event :=
  [.selectProject "stories", .selectProject "poems", .loadResponse 0 .ok,
   .socketOpen first, .loadResponse 0 .ok, .socketOpen second]

/-- The session after `twoLoads`. -/
def replaced : Session :=
  Session.run twoLoads Session.initial

/-- The project `stories` is selected, its model is loaded, the socket connects and the
user sends `Tell me a story`. -/
def firstTurn : List Event :=
  [.selectProject "stories", .loadResponse 0 .ok, .socketOpen first,
   .typeInput "Tell me a story", .send 10]

/-- After the first turn the user types `And another`. -/
def secondInput : List Event :=
  firstTurn ++ [.typeInput "And another"]

end Scenario

/-! ## ProgressDashboard.jsx : the ETA text -/

/-- `Math.round(numerator / denominator)` for whole numbers and a positive denominator:
the nearest whole number, a half rounded up. -/
def mathRound (numerator denominator : Nat) : Nat :=
  (2 * numerator + denominator) / (2 * denominator)

/-- The function `formatTime` of `ProgressDashboard`, for a whole number of minutes. -/
def formatTime (minutes : Nat) : String :=
  if minutes < 1 then toString (mathRound (minutes * 60) 1) ++ "s"
  else if minutes < 60 then toString (mathRound minutes 1) ++ "m"
  else toString (mathRound minutes 60) ++ "h " ++ toString (mathRound (minutes % 60) 1) ++ "m"

/-! ## App.jsx : the callbacks given to DataUpload, and the training phase -/

namespace App

/-- The effects of `uploadFiles` on `App`: `onProjectChange` is `setCurrentProject` and
`onDataUploaded` is `() => setActiveTab('train')`. -/
def afterUpload (effects : List UploadEffect) (s : App) : App :=
  effects.foldl (fun acc effect =>
    match effect with
    | .onProjectChange project => set acc (.setCurrentProject project)
    | .onDataUploaded => set acc (.setActiveTab .train)
    | _ => acc) s

end App

/-- The phases of a training job that the client state can show. -/
inductive Phase where
  | idle
  | running
  | completed
  deriving DecidableEq, Repr

/-- The state of `App` with the `data` of the `training-status` query (the last
response, `trainingStatus`) and the mounted `TrainingWizard`. -/
structure Monitor where
  app : App
  trainingStatus : Option TrainingStatus
  wizard : TrainingWizard
  deriving DecidableEq, Repr

/-- What changes the training state of the client. -/
inductive MonitorEvent where
  /-- A response of the `training-status` query. -/
  | poll (data : TrainingStatus)
  /-- A click on `Start Training`, with the answer of the backend. -/
  | startTraining (response : ApiResponse)
  /-- A click on `Continue Training`, with the answer of the backend. -/
  | continueTraining (response : ApiResponse)
  deriving DecidableEq, Repr

namespace Monitor

/-- The client right after mounting. -/
def initial : Monitor :=
  { app := App.initial, trainingStatus := none, wizard := TrainingWizard.initial "" }

/-- The phase derived from the client state: Running when `isTraining` is true,
Completed when it is not and the last response says `progress.completed`, Idle
otherwise. -/
def phase (m : Monitor) : Phase :=
  if m.app.isTraining = some true then .running
  else
    match m.trainingStatus with
    | some data => if App.completed data = true then .completed else .idle
    | none => .idle

/-- One event; the wizard has the `currentProject` of `App` as its prop. -/
def step (e : MonitorEvent) (m : Monitor) : Monitor :=
  let wizard : TrainingWizard := { m.wizard with currentProject := m.app.currentProject }
  match e with
  | .poll data => { m with app := App.onSuccess data m.app, trainingStatus := some data }
  | .startTraining response =>
    let next := TrainingWizard.startTraining response wizard
    { m with app := App.afterWizard next.2 m.app, wizard := next.1 }
  | .continueTraining response =>
    let next := TrainingWizard.continueTraining response wizard
    { m with app := App.afterWizard next.2 m.app, wizard := next.1 }

/-- The events of a list one after the other. -/
def run (events : List MonitorEvent) (m : Monitor) : Monitor :=
  events.foldl (fun acc e => step e acc) m

/-- Whether the event sets the training flag in the state `m`: a response that reports
a running training, or a start or continue action with a project selected that the
backend accepts. -/
def startsTraining (e : MonitorEvent) (m : Monitor) : Prop :=
  match e with
  | .poll data => data.is_training = some true
  | .startTraining response => m.app.currentProject ≠ "" ∧ response = .ok
  | .continueTraining response => m.app.currentProject ≠ "" ∧ response = .ok

end Monitor

namespace Session

/-- The session has a loaded model and nothing outstanding: no pending load, no socket
connecting or open, no stored connection. -/
def Disconnected (s : Session) : Prop :=
  s.ui.isModelLoaded = true ∧ s.loading = [] ∧ s.connecting = [] ∧ s.opened = [] ∧
    s.ui.wsConnection = none

end Session

namespace Scenario

/-- The project `stories` is selected, its model is loaded and the socket is open. -/
def connected : Session :=
  Session.run [.selectProject "stories", .loadResponse 0 .ok, .socketOpen first]
    Session.initial

/-- The session after the open socket was closed by the other side. -/
def disconnected : Session :=
  Session.step (.socketClose first) connected

/-- The user tries to go on after the closure: another project and back, a click where
the load button would be, a text and a send. -/
def retry : List Event :=
  [.selectProject "poems", .selectProject "stories", .clickLoadModel,
   .typeInput "Are you there?", .send 30]

/-- The client has seen the training of `stories` complete. -/
def trained : Monitor :=
  Monitor.run [.startTraining .ok, .poll statusRunning, .poll statusCompleted]
    { Monitor.initial with app := App.set App.initial (.setCurrentProject "stories") }

end Scenario

/-- Answers in which every request is accepted. -/
def acceptAll (_ : Nat) : ApiResponse :=
  .ok

/-! ## ProgressDashboard.jsx : the completion effect, and a poll as `App` sees it -/

namespace ProgressDashboard

/-- The first statement of the component,
`if (!trainingStatus?.is_training && !trainingStatus?.progress) return ..`: the component
returns before it declares its effect. -/
def returnsEarly (trainingStatus : Option TrainingStatus) : Bool :=
  match trainingStatus with
  | none => true
  | some data => !(data.is_training == some true) && data.progress.isNone

/-- `const isCompleted = !trainingStatus.is_training && progress.completed`, with
`progress = trainingStatus.progress || {}`, as a truth value. -/
def isCompleted (data : TrainingStatus) : Bool :=
  !(data.is_training == some true) &&
    (match data.progress with
     | some p => p.completed == some true
     | none => false)

/-- The setter calls of the effect
`if (isCompleted && onTrainingComplete) onTrainingComplete()` after a render with the
prop `trainingStatus`; `App` passes `onTrainingComplete={() => setActiveTab('chat')}`, a
new function in every render, so the effect runs after every render of `App`. -/
def effectCalls (trainingStatus : Option TrainingStatus) : List SetState :=
  match trainingStatus with
  | none => []
  | some data =>
    if returnsEarly (some data) = true then []
    else if isCompleted data = true then [.setActiveTab .chat]
    else []

end ProgressDashboard

namespace Monitor

/-- A render of `App` followed by the effect of the `ProgressDashboard` it always
mounts (`TabsContent` renders its children whatever the active tab is), which gets the
`data` of the `training-status` query as `trainingStatus`. -/
def render (m : Monitor) : Monitor :=
  { m with app := (ProgressDashboard.effectCalls m.trainingStatus).foldl App.set m.app }

/-- One poll of the `training-status` query.  When the query function resolves,
`onSuccess` runs and the body becomes the `data` of the query; when it rejects, the
`data` stays.  Either way `App` renders again, and the effect of `ProgressDashboard`
runs after the render. -/
def onStatusFetch (result : StatusFetch) (m : Monitor) : Monitor :=
  match result with
  | .rejected => render m
  | .resolved _ data =>
    render { m with app := App.onSuccess data m.app, trainingStatus := some data }

end Monitor

/-- The client while `stories` is training: the flag is set, the Progress tab is shown
and the last response reported a running training. -/
def monitorTraining : Monitor :=
  { app := appTraining, trainingStatus := some statusRunning,
    wizard := TrainingWizard.initial "stories" }

/-! ## The message handler, case by case -/

theorem onmessage_messageReceived (ws : WebSocket) (data : ServerMessage) (now : Nat)
    (s : ChatInterface) (h : data.type = some "message_received") :
    onmessage ws data now s = { s with isLoading := true, streamingResponse := "" } := by
  simp [onmessage, h]

theorem onmessage_token (ws : WebSocket) (data : ServerMessage) (now : Nat)
    (s : ChatInterface) (h : data.type = some "token") :
    onmessage ws data now s =
      { s with streamingResponse := s.streamingResponse ++ tokenText data } := by
  simp [onmessage, h]

theorem onmessage_complete (ws : WebSocket) (data : ServerMessage) (now : Nat)
    (s : ChatInterface) (h : data.type = some "complete") :
    onmessage ws data now s =
      { s with
        messages := s.messages ++
          [{ type := .assistant, content := ws.streamingResponse, timestamp := now }]
        streamingResponse := ""
        isLoading := false
        metrics := { latency := data.latency_ms, inputTokens := data.input_tokens,
                     outputTokens := data.output_tokens,
                     totalTokens := data.total_tokens } } := by
  simp [onmessage, h]

theorem onmessage_error (ws : WebSocket) (data : ServerMessage) (now : Nat)
    (s : ChatInterface) (h : data.type = some "error") :
    onmessage ws data now s = { s with isLoading := false, streamingResponse := "" } := by
  simp [onmessage, h]

theorem onmessages_cons (ws : WebSocket) (e : ServerMessage × Nat)
    (events : List (ServerMessage × Nat)) (s : ChatInterface) :
    onmessages ws (e :: events) s = onmessages ws events (onmessage ws e.1 e.2 s) := rfl

/-- Token messages only grow the buffer: every other field stays, and the buffer gains
the token texts in arrival order. -/
theorem onmessages_tokens (ws : WebSocket) (events : List (ServerMessage × Nat))
    (h : ∀ e ∈ events, e.1.type = some "token") (s : ChatInterface) :
    onmessages ws events s =
      { s with streamingResponse :=
          s.streamingResponse ++ concat (events.map fun e => tokenText e.1) } := by
  induction events generalizing s with
  | nil => simp [onmessages, concat]
  | cons e rest ih =>
    have he : e.1.type = some "token" := h e (List.mem_cons_self _ _)
    have hrest : ∀ x ∈ rest, x.1.type = some "token" :=
      fun x hx => h x (List.mem_cons_of_mem _ hx)
    rw [onmessages_cons, ih hrest, onmessage_token ws e.1 e.2 s he]
    simp [concat, String.append_assoc]

theorem onmessages_append (ws : WebSocket) (xs ys : List (ServerMessage × Nat))
    (s : ChatInterface) :
    onmessages ws (xs ++ ys) s = onmessages ws ys (onmessages ws xs s) := by
  simp [onmessages, List.foldl_append]

/-! ## C1 : the content of the assistant entry -/

/-- The entry that `complete` appends carries the text the socket's handler closed over,
whatever the buffer holds. -/
theorem onmessage_complete_content (ws : WebSocket) (data : ServerMessage) (now : Nat)
    (s : ChatInterface) (h : data.type = some "complete") :
    (onmessage ws data now s).messages =
      s.messages ++ [{ type := .assistant, content := ws.streamingResponse,
                       timestamp := now }] := by
  rw [onmessage_complete ws data now s h]

/-- C1, where the code differs from the claim: in the session of `Scenario` the buffer
holds `Once upon a time.` when `complete` arrives, and the assistant entry that the
`complete` handler appends has the empty content which the handler closed over when the
socket was created, not the concatenation of the tokens. -/
theorem C1_complete_appends_closed_over_text :
    (onmessages Scenario.socket Scenario.streamed Scenario.asked).streamingResponse
        = "Once upon a time." ∧
      (onmessages Scenario.socket (Scenario.streamed ++ [Scenario.completion])
          Scenario.asked).messages
        = Scenario.asked.messages ++
            [{ type := .assistant, content := "", timestamp := 15 }] ∧
      (onmessages Scenario.socket (Scenario.streamed ++ [Scenario.completion])
          Scenario.asked).metrics
        = { latency := some 120, inputTokens := some 5, outputTokens := some 4,
            totalTokens := some 9 } := by
  decide

/-! ## C2 : a second send while a turn is awaiting its response -/

theorem sendMessage_isLoading (s : ChatInterface) (now : Nat) (h : s.isLoading = true) :
    sendMessage s now = (s, []) := by
  simp [sendMessage, h]

/-- C2 as stated fails: right after the accepted send of `Scenario.asked`, before the
server has acknowledged it, a second send with the text `And another` is accepted; it
appends a second user entry and transmits a second request. -/
theorem C2_second_send_accepted_before_acknowledgement :
    (sendMessage (setInputMessage "Tell me a story" Scenario.ready) 10).2
        = [.send Scenario.socket
            { message := "Tell me a story", temperature := 7, max_tokens := 150 }] ∧
      sendMessage (setInputMessage "And another" Scenario.asked) 11
        = ({ Scenario.asked with
              messages := Scenario.asked.messages ++
                [{ type := .user, content := "And another", timestamp := 11 }] },
           [.send Scenario.socket
              { message := "And another", temperature := 7, max_tokens := 150 }]) := by
  decide

/-- C2 as amended: once the handler has seen `message_received` for the turn, and
through any number of token messages after it, a send with any text is rejected: the
state is unchanged and nothing is transmitted. -/
theorem C2_send_rejected_once_acknowledged (ws : WebSocket) (s : ChatInterface)
    (ack : ServerMessage × Nat) (tokens : List (ServerMessage × Nat)) (text : String)
    (now : Nat) (hack : ack.1.type = some "message_received")
    (htokens : ∀ e ∈ tokens, e.1.type = some "token") :
    sendMessage (setInputMessage text (onmessages ws (ack :: tokens) s)) now
      = (setInputMessage text (onmessages ws (ack :: tokens) s), []) := by
  apply sendMessage_isLoading
  rw [onmessages_cons, onmessages_tokens ws tokens htokens,
    onmessage_messageReceived ws ack.1 ack.2 s hack]
  rfl

theorem C2_send_rejected_once_acknowledged_witness :
    sendMessage (setInputMessage "And another"
        (onmessages Scenario.socket Scenario.streamed Scenario.asked)) 16
      = (setInputMessage "And another"
          (onmessages Scenario.socket Scenario.streamed Scenario.asked), []) :=
  C2_send_rejected_once_acknowledged Scenario.socket Scenario.asked
    (.messageReceived, 11)
    [(.ofToken "Once", 12), (.ofToken " upon", 13), (.ofToken " a time.", 14)]
    "And another" 16 (by decide) (by decide)

/-! ## C3 : the effect of a completed training -/

namespace App

theorem pollCalls_append (xs ys : List TrainingStatus) :
    pollCalls (xs ++ ys) = pollCalls xs ++ pollCalls ys := by
  simp [pollCalls, List.flatMap_append]

theorem trainingCompleteCount_append (xs ys : List TrainingStatus) :
    trainingCompleteCount (xs ++ ys) = trainingCompleteCount xs + trainingCompleteCount ys := by
  simp [trainingCompleteCount, pollCalls_append, List.count_append]

theorem trainingCompleteCount_cons (d : TrainingStatus) (ds : List TrainingStatus) :
    trainingCompleteCount (d :: ds) =
      (onSuccessCalls d).count (.setActiveTab .chat) + trainingCompleteCount ds := by
  simp [trainingCompleteCount, pollCalls, List.flatMap_cons, List.count_append]

theorem count_onSuccessCalls_training (d : TrainingStatus) (h : d.is_training = some true) :
    (onSuccessCalls d).count (.setActiveTab .chat) = 0 := by
  simp [onSuccessCalls, h]

theorem count_onSuccessCalls_completed (d : TrainingStatus)
    (h : d.is_training = some false) (hc : completed d = true) :
    (onSuccessCalls d).count (.setActiveTab .chat) = 1 := by
  simp [onSuccessCalls, h, hc]

theorem trainingCompleteCount_training (ds : List TrainingStatus)
    (h : ∀ d ∈ ds, d.is_training = some true) : trainingCompleteCount ds = 0 := by
  induction ds with
  | nil => rfl
  | cons d rest ih =>
    rw [trainingCompleteCount_cons, count_onSuccessCalls_training d (h d (List.mem_cons_self _ _)),
      ih (fun x hx => h x (List.mem_cons_of_mem _ hx))]

theorem trainingCompleteCount_replicate (done : TrainingStatus) (n : Nat)
    (h : done.is_training = some false) (hc : completed done = true) :
    trainingCompleteCount (List.replicate n done) = n := by
  induction n with
  | zero => rfl
  | succ k ih =>
    rw [List.replicate_succ, trainingCompleteCount_cons,
      count_onSuccessCalls_completed done h hc, ih]
    omega

end App

/-- C3 as stated fails: with the terminal status polled one more time after the flip,
`onSuccess` switches the active tab to `'chat'` twice, not once. -/
theorem C3_training_complete_fires_per_poll :
    App.trainingCompleteCount [statusRunning, statusCompleted, statusCompleted] = 2 ∧
      App.trainingCompleteCount [statusRunning, statusCompleted, statusCompleted] ≠ 1 := by
  decide

/-- C3 as amended: after polls that report a running training, the terminal status
(not training, `progress.completed` true) polled `n + 1` times makes `onSuccess` switch
the active tab to `'chat'` once per poll, `n + 1` times in all. -/
theorem C3_training_complete_once_per_terminal_poll (running : List TrainingStatus)
    (done : TrainingStatus) (n : Nat)
    (hrunning : ∀ d ∈ running, d.is_training = some true)
    (hdone : done.is_training = some false) (hcompleted : App.completed done = true) :
    App.trainingCompleteCount (running ++ List.replicate (n + 1) done) = n + 1 := by
  rw [App.trainingCompleteCount_append, App.trainingCompleteCount_training running hrunning,
    App.trainingCompleteCount_replicate done (n + 1) hdone hcompleted]
  omega

theorem C3_training_complete_once_per_terminal_poll_witness :
    App.trainingCompleteCount ([statusRunning, statusRunning] ++
      List.replicate (3 + 1) statusCompleted) = 3 + 1 :=
  C3_training_complete_once_per_terminal_poll [statusRunning, statusRunning]
    statusCompleted 3 (by decide) (by decide) (by decide)

/-! ## C4 : a change of the current project -/

/-- C4 as stated fails: with the model loaded, one user entry in the message list and
`Once upon a time.` in the buffer, changing the project to `poems` changes only the
`currentProject` prop; nothing is closed, the message list and the buffer keep their
content and the stored connection is still the socket of the project `stories`. -/
theorem C4_project_change_keeps_session :
    changeProject "poems" Scenario.streaming
        = ({ Scenario.streaming with currentProject := "poems" }, []) ∧
      (changeProject "poems" Scenario.streaming).1.messages
        = [{ type := .user, content := "Tell me a story", timestamp := 10 }] ∧
      (changeProject "poems" Scenario.streaming).1.streamingResponse
        = "Once upon a time." ∧
      (changeProject "poems" Scenario.streaming).1.wsConnection
        = some { id := 1, project := "stories", streamingResponse := "" } := by
  decide

/-- C4 as amended: for every state, changing the current project closes no connection
and resets nothing: the message list, the buffer, the stored connection, the metrics and
the model-loaded flag are the same afterwards, the prop is the new project, and the
switch appends nothing to the message list. -/
theorem C4_project_change_resets_nothing (project : String) (s : ChatInterface) :
    (changeProject project s).1.currentProject = project ∧
      (changeProject project s).1.messages = s.messages ∧
      (changeProject project s).1.streamingResponse = s.streamingResponse ∧
      (changeProject project s).1.wsConnection = s.wsConnection ∧
      (changeProject project s).1.metrics = s.metrics ∧
      (changeProject project s).1.isModelLoaded = s.isModelLoaded ∧
      ∀ ws, Effect.close ws ∉ (changeProject project s).2 := by
  unfold changeProject loadModelStart
  by_cases h : project ≠ "" ∧ s.isModelLoaded = false
  · have hp : ¬ project = "" := h.1
    simp [h, hp]
  · simp [h]

/-! ## C5 : a send without a connection -/

/-- C5: in every state whose `wsConnection` is null, for every input text, `sendMessage`
returns without doing anything: the state (the message list and every other field) is
unchanged and nothing is transmitted. -/
theorem C5_send_rejected_without_connection (s : ChatInterface) (text : String) (now : Nat)
    (h : s.wsConnection = none) :
    sendMessage (setInputMessage text s) now = (setInputMessage text s, []) := by
  simp [sendMessage, setInputMessage, h]

theorem C5_send_rejected_without_connection_witness :
    sendMessage (setInputMessage "Tell me a story" (initial "stories")) 3
      = (setInputMessage "Tell me a story" (initial "stories"), []) :=
  C5_send_rejected_without_connection (initial "stories") "Tell me a story" 3 (by decide)

/-! ## C6 : an accepted send -/

/-- C6 as stated fails: in `Scenario.stray` (connection open, not loading, `Hello` in the
buffer) a send of the input `  Tell me a story ` is accepted, and afterwards the buffer
still holds `Hello`, `isLoading` is still false, and the appended entry and the
transmitted message carry the trimmed text, not the input text. -/
theorem C6_accepted_send_keeps_buffer_and_flag :
    sendMessage (setInputMessage "  Tell me a story " Scenario.stray) 10
        = ({ Scenario.stray with
              messages := [{ type := .user, content := "Tell me a story", timestamp := 10 }]
              inputMessage := "" },
           [.send Scenario.socket
              { message := "Tell me a story", temperature := 7, max_tokens := 150 }]) ∧
      (sendMessage (setInputMessage "  Tell me a story " Scenario.stray) 10).1.streamingResponse
        = "Hello" ∧
      (sendMessage (setInputMessage "  Tell me a story " Scenario.stray) 10).1.isLoading
        = false := by
  decide

/-- C6 as amended: when the connection is open, `isLoading` is false and the input is
not blank, `sendMessage` appends exactly one user entry whose content is the trimmed
input, clears the input, transmits exactly one message with the trimmed text and the
current chat config on the stored connection, and changes nothing else: the buffer and
`isLoading` are as before. -/
theorem C6_accepted_send (s : ChatInterface) (ws : WebSocket) (now : Nat)
    (hws : s.wsConnection = some ws) (hloading : s.isLoading = false)
    (htext : trim s.inputMessage ≠ "") :
    sendMessage s now
      = ({ s with
            messages := s.messages ++
              [{ type := .user, content := trim s.inputMessage, timestamp := now }]
            inputMessage := "" },
         [.send ws { message := trim s.inputMessage
                     temperature := s.chatConfig.temperature
                     max_tokens := s.chatConfig.maxTokens }]) := by
  simp [sendMessage, hws, hloading, htext]

theorem C6_accepted_send_witness :
    sendMessage (setInputMessage " hi " Scenario.ready) 10
      = ({ setInputMessage " hi " Scenario.ready with
            messages := (setInputMessage " hi " Scenario.ready).messages ++
              [{ type := .user, content := trim (setInputMessage " hi " Scenario.ready).inputMessage,
                 timestamp := 10 }]
            inputMessage := "" },
         [.send Scenario.socket
            { message := trim (setInputMessage " hi " Scenario.ready).inputMessage
              temperature := (setInputMessage " hi " Scenario.ready).chatConfig.temperature
              max_tokens := (setInputMessage " hi " Scenario.ready).chatConfig.maxTokens }]) :=
  C6_accepted_send (setInputMessage " hi " Scenario.ready) Scenario.socket 10
    (by decide) (by decide) (by decide)

/-! ## C7 : the `complete` message -/

/-- C7: for every state and every `complete` message with the payload values `latency`,
`input`, `output`, `total`, the handler appends exactly one assistant entry after the
earlier entries, which stay as they were and in order, leaves the buffer empty, sets
`isLoading` to false and sets the metrics to exactly the four payload values. -/
theorem C7_complete_appends_one_assistant_entry (ws : WebSocket) (s : ChatInterface)
    (data : ServerMessage) (now latency input output total : Nat)
    (htype : data.type = some "complete") (hlatency : data.latency_ms = some latency)
    (hinput : data.input_tokens = some input) (houtput : data.output_tokens = some output)
    (htotal : data.total_tokens = some total) :
    (∃ entry : Message, entry.type = .assistant ∧
        (onmessage ws data now s).messages = s.messages ++ [entry]) ∧
      (onmessage ws data now s).streamingResponse = "" ∧
      (onmessage ws data now s).isLoading = false ∧
      (onmessage ws data now s).metrics
        = { latency := some latency, inputTokens := some input,
            outputTokens := some output, totalTokens := some total } := by
  rw [onmessage_complete ws data now s htype, hlatency, hinput, houtput, htotal]
  exact ⟨⟨_, rfl, rfl⟩, rfl, rfl, rfl⟩

theorem C7_complete_appends_one_assistant_entry_witness :
    (∃ entry : Message, entry.type = .assistant ∧
        (onmessage Scenario.socket (.complete 120 5 4 9) 15 Scenario.streaming).messages
          = Scenario.streaming.messages ++ [entry]) ∧
      (onmessage Scenario.socket (.complete 120 5 4 9) 15 Scenario.streaming).streamingResponse
        = "" ∧
      (onmessage Scenario.socket (.complete 120 5 4 9) 15 Scenario.streaming).isLoading
        = false ∧
      (onmessage Scenario.socket (.complete 120 5 4 9) 15 Scenario.streaming).metrics
        = { latency := some 120, inputTokens := some 5, outputTokens := some 4,
            totalTokens := some 9 } :=
  C7_complete_appends_one_assistant_entry Scenario.socket Scenario.streaming
    (.complete 120 5 4 9) 15 120 5 4 9 rfl rfl rfl rfl rfl

/-! ## C8 : the `error` message -/

/-- C8: for every state and every `error` message, the handler leaves the message list
unchanged, leaves the buffer empty and sets `isLoading` to false; the metrics and the
stored connection are unchanged. -/
theorem C8_error_adds_no_entry (ws : WebSocket) (s : ChatInterface) (data : ServerMessage)
    (now : Nat) (htype : data.type = some "error") :
    (onmessage ws data now s).messages = s.messages ∧
      (onmessage ws data now s).streamingResponse = "" ∧
      (onmessage ws data now s).isLoading = false ∧
      (onmessage ws data now s).metrics = s.metrics ∧
      (onmessage ws data now s).wsConnection = s.wsConnection := by
  rw [onmessage_error ws data now s htype]
  exact ⟨rfl, rfl, rfl, rfl, rfl⟩

theorem C8_error_adds_no_entry_witness :
    (onmessage Scenario.socket (.ofError "out of memory") 15 Scenario.streaming).messages
        = Scenario.streaming.messages ∧
      (onmessage Scenario.socket (.ofError "out of memory") 15
          Scenario.streaming).streamingResponse = "" ∧
      (onmessage Scenario.socket (.ofError "out of memory") 15 Scenario.streaming).isLoading
        = false ∧
      (onmessage Scenario.socket (.ofError "out of memory") 15 Scenario.streaming).metrics
        = Scenario.streaming.metrics ∧
      (onmessage Scenario.socket (.ofError "out of memory") 15
          Scenario.streaming).wsConnection = Scenario.streaming.wsConnection :=
  C8_error_adds_no_entry Scenario.socket Scenario.streaming (.ofError "out of memory") 15 rfl

/-! ## C9 : a message of another type -/

/-- C9: for every state and every parsed server message whose `type` is none of
`message_received`, `token`, `complete`, `error` (a message without `type` included),
the handler returns the state it was given: the message list, the buffer, `isLoading`,
the metrics and the connection are all unchanged. -/
theorem C9_other_type_is_dropped (ws : WebSocket) (s : ChatInterface) (data : ServerMessage)
    (now : Nat) (h1 : data.type ≠ some "message_received") (h2 : data.type ≠ some "token")
    (h3 : data.type ≠ some "complete") (h4 : data.type ≠ some "error") :
    onmessage ws data now s = s := by
  simp [onmessage, h1, h2, h3, h4]

theorem C9_other_type_is_dropped_witness :
    onmessage Scenario.socket { ServerMessage.empty with token := some "x" } 15
        Scenario.streaming = Scenario.streaming :=
  C9_other_type_is_dropped Scenario.socket Scenario.streaming
    { ServerMessage.empty with token := some "x" } 15
    (by decide) (by decide) (by decide) (by decide)

/-! ## C10 : the buffer between `message_received` and the tokens -/

theorem map_tokenText (tokens : List (ServerMessage × Nat)) (texts : List String)
    (h : tokens.map (fun e => e.1.token) = texts.map some) :
    tokens.map (fun e => tokenText e.1) = texts := by
  induction tokens generalizing texts with
  | nil =>
    cases texts with
    | nil => rfl
    | cons t ts => simp at h
  | cons e rest ih =>
    cases texts with
    | nil => simp at h
    | cons t ts =>
      simp only [List.map_cons, List.cons.injEq] at h
      rw [List.map_cons, ih ts h.2]
      simp [tokenText, h.1]

/-- C10: for every state, `message_received` empties the buffer whatever it held (and
sets `isLoading`), each token message appends its token text at the end and changes
nothing else, so after `message_received` and the token messages with the texts
`t1, .., tn` the buffer is `t1 ++ .. ++ tn`. -/
theorem C10_buffer_is_concatenation_of_tokens (ws : WebSocket) (s : ChatInterface)
    (ack : ServerMessage × Nat) (tokens : List (ServerMessage × Nat)) (texts : List String)
    (hack : ack.1.type = some "message_received")
    (htokens : ∀ e ∈ tokens, e.1.type = some "token")
    (htexts : tokens.map (fun e => e.1.token) = texts.map some) :
    onmessage ws ack.1 ack.2 s = { s with isLoading := true, streamingResponse := "" } ∧
      (∀ e ∈ tokens, ∀ s1 : ChatInterface, onmessage ws e.1 e.2 s1
        = { s1 with streamingResponse := s1.streamingResponse ++ tokenText e.1 }) ∧
      onmessages ws (ack :: tokens) s
        = { s with isLoading := true, streamingResponse := concat texts } := by
  refine ⟨onmessage_messageReceived ws ack.1 ack.2 s hack,
    fun e he s1 => onmessage_token ws e.1 e.2 s1 (htokens e he), ?_⟩
  rw [onmessages_cons, onmessages_tokens ws tokens htokens,
    onmessage_messageReceived ws ack.1 ack.2 s hack, map_tokenText tokens texts htexts]
  simp

theorem C10_buffer_is_concatenation_of_tokens_witness :
    onmessage Scenario.socket ServerMessage.messageReceived 11 Scenario.stray
        = { Scenario.stray with isLoading := true, streamingResponse := "" } ∧
      (∀ e ∈ [(ServerMessage.ofToken "Once", 12), (ServerMessage.ofToken " upon", 13)],
        ∀ s1 : ChatInterface, onmessage Scenario.socket e.1 e.2 s1
          = { s1 with streamingResponse := s1.streamingResponse ++ tokenText e.1 }) ∧
      onmessages Scenario.socket
          ((ServerMessage.messageReceived, 11) ::
            [(ServerMessage.ofToken "Once", 12), (ServerMessage.ofToken " upon", 13)])
          Scenario.stray
        = { Scenario.stray with
            isLoading := true, streamingResponse := concat ["Once", " upon"] } :=
  C10_buffer_is_concatenation_of_tokens Scenario.socket Scenario.stray
    (ServerMessage.messageReceived, 11)
    [(ServerMessage.ofToken "Once", 12), (ServerMessage.ofToken " upon", 13)]
    ["Once", " upon"] rfl (by decide) rfl

/-! ## C11 : the polling cadence -/

namespace App

theorem onSuccess_isTraining (data : TrainingStatus) (s : App) :
    (onSuccess data s).isTraining = data.is_training := by
  unfold onSuccess onSuccessCalls
  split <;> rfl

theorem onSuccess_currentProject (data : TrainingStatus) (s : App) :
    (onSuccess data s).currentProject = s.currentProject := by
  unfold onSuccess onSuccessCalls
  split <;> rfl

theorem onSuccess_activeTab (data : TrainingStatus) (s : App) :
    (onSuccess data s).activeTab =
      if data.is_training = some false ∧ completed data = true then Tab.chat
      else s.activeTab := by
  unfold onSuccess onSuccessCalls
  split <;> rfl

end App

/-- C11: the polling interval depends on the stored training flag only; it is 1000 ms
exactly when `isTraining` is true and 5000 ms in every other state; after a poll response
it is 1000 ms exactly when the response says `is_training: true`, and after
`onTrainingStarted` it is 1000 ms: the interval is computed from the state the update
produced. -/
theorem C11_interval_follows_training_flag (s : App) (data : TrainingStatus)
    (project : String) (tab : Tab) :
    (App.refetchInterval s = 1000 ↔ s.isTraining = some true) ∧
      (App.refetchInterval s = 5000 ↔ s.isTraining ≠ some true) ∧
      App.refetchInterval { s with currentProject := project, activeTab := tab }
        = App.refetchInterval s ∧
      (App.refetchInterval (App.onSuccess data s) = 1000 ↔ data.is_training = some true) ∧
      (App.refetchInterval (App.onSuccess data s) = 5000 ↔ data.is_training ≠ some true) ∧
      App.refetchInterval (App.onTrainingStarted s) = 1000 := by
  refine ⟨?_, ?_, rfl, ?_, ?_, rfl⟩
  · unfold App.refetchInterval
    split <;> simp [*]
  · unfold App.refetchInterval
    split <;> simp [*]
  · unfold App.refetchInterval
    rw [App.onSuccess_isTraining]
    split <;> simp [*]
  · unfold App.refetchInterval
    rw [App.onSuccess_isTraining]
    split <;> simp [*]

/-! ## C12 : a failed poll and an error response -/

namespace Monitor

theorem foldl_set_isTraining (calls : List SetState) (s : App)
    (h : ∀ c ∈ calls, c = SetState.setActiveTab .chat) :
    (calls.foldl App.set s).isTraining = s.isTraining ∧
      (calls.foldl App.set s).currentProject = s.currentProject := by
  induction calls generalizing s with
  | nil => exact ⟨rfl, rfl⟩
  | cons c rest ih =>
    have hc := h c (List.mem_cons_self _ _)
    subst hc
    exact ih _ (fun x hx => h x (List.mem_cons_of_mem _ hx))

theorem effectCalls_chat (trainingStatus : Option TrainingStatus) :
    ∀ c ∈ ProgressDashboard.effectCalls trainingStatus, c = SetState.setActiveTab .chat := by
  intro c hc
  unfold ProgressDashboard.effectCalls at hc
  cases trainingStatus with
  | none => simp at hc
  | some data =>
    simp only at hc
    split_ifs at hc <;> simp_all

theorem effectCalls_body (data : TrainingStatus) (h : data.is_training = none) :
    ProgressDashboard.effectCalls (some data)
      = if App.completed data = true then [.setActiveTab .chat] else [] := by
  unfold ProgressDashboard.effectCalls ProgressDashboard.returnsEarly
    ProgressDashboard.isCompleted App.completed
  cases hp : data.progress with
  | none => simp [h, hp]
  | some p => simp [h, hp]

end Monitor

/-- C12 as stated fails: while `stories` is training (interval 1000 ms, Progress tab
shown), a poll answered by a backend error whose JSON body has no `is_training` is
passed to `onSuccess`, which stores `undefined` as the training flag: the interval
becomes 5000 ms.  And when such a body carries `progress.completed`, the effect of
`ProgressDashboard` switches the active tab to `'chat'`. -/
theorem C12_error_body_resets_training_flag :
    monitorTraining.app.isTraining = some true ∧
      App.refetchInterval monitorTraining.app = 1000 ∧
      monitorTraining.app.activeTab = .progress ∧
      (Monitor.onStatusFetch (.resolved false statusErrorBody) monitorTraining).app.isTraining
        = none ∧
      App.refetchInterval
          (Monitor.onStatusFetch (.resolved false statusErrorBody) monitorTraining).app
        = 5000 ∧
      (Monitor.onStatusFetch (.resolved false statusCompletedBody)
          monitorTraining).app.activeTab = .chat := by
  decide

/-- C12 as amended: in every state in which `isTraining` is true and the effect of
`ProgressDashboard` has run for the last response, a poll whose query function rejects
leaves the whole state as it was (flag, interval 1000 ms, active tab), and a poll
answered by a JSON body without `is_training` leaves the current project unchanged,
stores `undefined` as the training flag, so the interval becomes 5000 ms, and leaves the
active tab unchanged unless the body says `progress.completed`, in which case the tab
becomes `'chat'`. -/
theorem C12_failed_poll_keeps_state (m : Monitor) (ok : Bool) (data : TrainingStatus)
    (hrunning : m.app.isTraining = some true) (hsettled : Monitor.render m = m)
    (hbody : data.is_training = none) :
    Monitor.onStatusFetch .rejected m = m ∧
      App.refetchInterval (Monitor.onStatusFetch .rejected m).app = 1000 ∧
      (Monitor.onStatusFetch (.resolved ok data) m).app.activeTab
        = (if App.completed data = true then Tab.chat else m.app.activeTab) ∧
      (Monitor.onStatusFetch (.resolved ok data) m).app.currentProject
        = m.app.currentProject ∧
      (Monitor.onStatusFetch (.resolved ok data) m).app.isTraining = none ∧
      App.refetchInterval (Monitor.onStatusFetch (.resolved ok data) m).app = 5000 ∧
      (Monitor.onStatusFetch (.resolved ok data) m).trainingStatus = some data := by
  have hrej : Monitor.onStatusFetch .rejected m = m := hsettled
  have hflag : (Monitor.onStatusFetch (.resolved ok data) m).app.isTraining = none := by
    show ((ProgressDashboard.effectCalls (some data)).foldl App.set
      (App.onSuccess data m.app)).isTraining = none
    rw [(Monitor.foldl_set_isTraining _ _ (Monitor.effectCalls_chat (some data))).1,
      App.onSuccess_isTraining, hbody]
  refine ⟨hrej, ?_, ?_, ?_, hflag, ?_, rfl⟩
  · rw [hrej]
    simp [App.refetchInterval, hrunning]
  · show ((ProgressDashboard.effectCalls (some data)).foldl App.set
      (App.onSuccess data m.app)).activeTab = _
    rw [Monitor.effectCalls_body data hbody]
    by_cases hc : App.completed data = true
    · simp [hc, App.set]
    · simp [hc, App.onSuccess_activeTab, hbody]
  · show ((ProgressDashboard.effectCalls (some data)).foldl App.set
      (App.onSuccess data m.app)).currentProject = _
    rw [(Monitor.foldl_set_isTraining _ _ (Monitor.effectCalls_chat (some data))).2,
      App.onSuccess_currentProject]
  · simp [App.refetchInterval, hflag]

theorem C12_failed_poll_keeps_state_witness :
    Monitor.onStatusFetch .rejected monitorTraining = monitorTraining ∧
      App.refetchInterval (Monitor.onStatusFetch .rejected monitorTraining).app = 1000 ∧
      (Monitor.onStatusFetch (.resolved false statusErrorBody) monitorTraining).app.activeTab
        = (if App.completed statusErrorBody = true then Tab.chat
           else monitorTraining.app.activeTab) ∧
      (Monitor.onStatusFetch (.resolved false statusErrorBody)
          monitorTraining).app.currentProject = monitorTraining.app.currentProject ∧
      (Monitor.onStatusFetch (.resolved false statusErrorBody) monitorTraining).app.isTraining
        = none ∧
      App.refetchInterval
          (Monitor.onStatusFetch (.resolved false statusErrorBody) monitorTraining).app
        = 5000 ∧
      (Monitor.onStatusFetch (.resolved false statusErrorBody) monitorTraining).trainingStatus
        = some statusErrorBody :=
  C12_failed_poll_keeps_state monitorTraining false statusErrorBody (by decide) (by decide)
    (by decide)

/-! ## C13 : a response for another project -/

/-- C13 as stated fails: with `poems` selected, no training stored and the Upload tab
shown, a response for the project `stories` is applied all the same: a running status
sets the training flag, and a completed status switches the active tab to `'chat'`. -/
theorem C13_other_project_response_is_applied :
    statusRunning.project ≠ some "poems" ∧
      (App.onSuccess statusRunning
          (App.set App.initial (.setCurrentProject "poems"))).isTraining = some true ∧
      (App.set App.initial (.setCurrentProject "poems")).isTraining = some false ∧
      (App.onSuccess statusCompleted
          (App.set App.initial (.setCurrentProject "poems"))).activeTab = .chat ∧
      (App.set App.initial (.setCurrentProject "poems")).activeTab = .upload := by
  decide

/-- C13 as amended: `onSuccess` does not look at the `project` field of the response nor
at the selected project: for every response and every state the training flag becomes
the `is_training` of the response, the active tab becomes `'chat'` when the response
says not training and completed and is unchanged otherwise, and the result is the same
for every `project` field and every selected project. -/
theorem C13_response_applied_for_any_project (data : TrainingStatus) (s : App)
    (project : Option String) (selected : String) :
    (App.onSuccess data s).isTraining = data.is_training ∧
      (App.onSuccess data s).activeTab
        = (if data.is_training = some false ∧ App.completed data = true then Tab.chat
           else s.activeTab) ∧
      (App.onSuccess data s).currentProject = s.currentProject ∧
      (App.onSuccess { data with project := project }
          { s with currentProject := selected }).isTraining
        = (App.onSuccess data s).isTraining ∧
      (App.onSuccess { data with project := project }
          { s with currentProject := selected }).activeTab
        = (App.onSuccess data s).activeTab := by
  refine ⟨App.onSuccess_isTraining data s, App.onSuccess_activeTab data s,
    App.onSuccess_currentProject data s, ?_, ?_⟩
  · rw [App.onSuccess_isTraining, App.onSuccess_isTraining]
  · rw [App.onSuccess_activeTab, App.onSuccess_activeTab]
    rfl

/-! ## C14 : the order of the upload requests -/

namespace DataUpload

theorem uploadLoop_ok (projectSlug : String) (respond : Nat → ApiResponse)
    (files : List File) (i : Nat) (h : ∀ j, j < files.length → respond (i + j) = .ok) :
    uploadLoop projectSlug respond i files
      = (files.map (.fetchUpload projectSlug), none) := by
  induction files generalizing i with
  | nil => rfl
  | cons file rest ih =>
    have h0 : respond i = .ok := by simpa using h 0 (by simp)
    have hrest : ∀ j, j < rest.length → respond (i + 1 + j) = .ok := by
      intro j hj
      have := h (j + 1) (by simpa using hj)
      rwa [show i + 1 + j = i + (j + 1) by omega]
    simp [uploadLoop, h0, ih (i + 1) hrest]

theorem uploadLoop_refused (projectSlug : String) (respond : Nat → ApiResponse)
    (files : List File) (i k : Nat) (hk : k < files.length)
    (hprev : ∀ j, j < k → respond (i + j) = .ok) (hrefused : respond (i + k) ≠ .ok) :
    ∃ message, uploadLoop projectSlug respond i files
      = ((files.take (k + 1)).map (.fetchUpload projectSlug), some message) := by
  induction files generalizing i k with
  | nil => simp at hk
  | cons file rest ih =>
    cases k with
    | zero =>
      have hi : respond i ≠ .ok := by simpa using hrefused
      cases hr : respond i with
      | ok => exact absurd hr hi
      | notOk detail => exact ⟨detailOr detail "Upload failed", by simp [uploadLoop, hr]⟩
      | failed message => exact ⟨message, by simp [uploadLoop, hr]⟩
    | succ n =>
      have h0 : respond i = .ok := by simpa using hprev 0 (by omega)
      have hn : n < rest.length := by simpa using hk
      have hprev1 : ∀ j, j < n → respond (i + 1 + j) = .ok := by
        intro j hj
        have := hprev (j + 1) (by omega)
        rwa [show i + 1 + j = i + (j + 1) by omega]
      have hrefused1 : respond (i + 1 + n) ≠ .ok := by
        rwa [show i + 1 + n = i + (n + 1) by omega]
      obtain ⟨message, hm⟩ := ih (i + 1) n hn hprev1 hrefused1
      exact ⟨message, by simp [uploadLoop, h0, hm]⟩

theorem submitted_requests (projectSlug : String) (files : List File)
    (tail : List UploadEffect) :
    submitted (files.map (.fetchUpload projectSlug) ++ tail) = files ++ submitted tail := by
  induction files with
  | nil => rfl
  | cons file rest ih => simp [submitted, ih]

end DataUpload

/-- C14: for every non-empty list of selected files and non-blank project name, with
the requests before number `k` (from 0) accepted and the request number `k`, if there is
one, refused, `uploadFiles` makes its upload requests first, one for each of the first
`k + 1` files in list order and for no later file; with no refusal that is every file. -/
theorem C14_files_submitted_in_order (respond : Nat → ApiResponse) (s : DataUpload)
    (k : Nat) (hslug : ChatInterface.trim s.projectSlug ≠ "") (hfiles : s.files ≠ [])
    (hprev : ∀ i, i < k → respond i = .ok)
    (hrefused : k < s.files.length → respond k ≠ .ok) :
    DataUpload.submitted (DataUpload.uploadFiles respond s).2 = s.files.take (k + 1) ∧
      ∃ tail, DataUpload.submitted tail = [] ∧
        (DataUpload.uploadFiles respond s).2
          = (s.files.take (k + 1)).map (.fetchUpload s.projectSlug) ++ tail := by
  have hlen : ¬ s.files.length = 0 := by
    intro h
    exact hfiles (List.length_eq_zero.mp h)
  have key : ∃ tail, DataUpload.submitted tail = [] ∧
      (DataUpload.uploadFiles respond s).2
        = (s.files.take (k + 1)).map (.fetchUpload s.projectSlug) ++ tail := by
    by_cases hk : k < s.files.length
    · obtain ⟨message, hm⟩ := DataUpload.uploadLoop_refused s.projectSlug respond s.files 0 k
        hk (by simpa using hprev) (by simpa using hrefused hk)
      exact ⟨[.alert ("Upload failed: " ++ message)], rfl,
        by simp [DataUpload.uploadFiles, hslug, hlen, hm]⟩
    · have hall := DataUpload.uploadLoop_ok s.projectSlug respond s.files 0
        (fun j hj => by simpa using hprev j (by omega))
      have htake : s.files.take (k + 1) = s.files := List.take_of_length_le (by omega)
      exact ⟨[.onProjectChange s.projectSlug, .onDataUploaded,
          .alert "Files uploaded successfully!"], rfl,
        by simp [DataUpload.uploadFiles, hslug, hlen, hall, htake]⟩
  refine ⟨?_, key⟩
  obtain ⟨tail, htail, heq⟩ := key
  rw [heq, DataUpload.submitted_requests, htail, List.append_nil]

theorem C14_files_submitted_in_order_witness :
    DataUpload.submitted (DataUpload.uploadFiles (refuseAt 1) threeFiles).2
        = threeFiles.files.take (1 + 1) ∧
      ∃ tail, DataUpload.submitted tail = [] ∧
        (DataUpload.uploadFiles (refuseAt 1) threeFiles).2
          = (threeFiles.files.take (1 + 1)).map (.fetchUpload threeFiles.projectSlug)
            ++ tail :=
  C14_files_submitted_in_order (refuseAt 1) threeFiles 1 (by decide) (by decide)
    (by intro i hi; have : i = 0 := by omega
        subst this; decide)
    (by intro _; decide)

/-! ## C19 : the extensions of the selected files -/

/-- The files that `handleDrop` adds all pass the extension filter, in the order in
which they were dropped. -/
theorem handleDrop_files (droppedFiles : List File) (s : DataUpload) :
    (DataUpload.handleDrop droppedFiles s).files
      = s.files ++ droppedFiles.filter DataUpload.isValidFile := rfl

/-- C19, where the code differs from the claim: `setup.exe` does not pass the extension
filter and `handleDrop` rejects it, but `handleFileInput` has no filter and adds it to
the selected files. -/
theorem C19_file_picker_adds_unsupported_file :
    DataUpload.isValidFile programFile = false ∧
      (DataUpload.handleDrop [programFile] (DataUpload.initial "")).files = [] ∧
      (DataUpload.handleFileInput [programFile] (DataUpload.initial "")).files
        = [programFile] := by
  decide

/-! ## C20 : starting and continuing a training -/

/-- C20: `startTraining` and `continueTraining` send no request and leave the state as
it was when no project is selected, and send exactly one request otherwise; they invoke
`onTrainingStarted`, once, exactly when a project is selected and the backend answers
ok, so in every other case the training flag and the active tab of `App` are unchanged;
and whenever a request was made `isStarting` is false afterwards. -/
theorem C20_training_start_rejected_or_started (s : TrainingWizard) (response : ApiResponse)
    (app : App) :
    (((TrainingWizard.startTraining response s).2.filter WizardEffect.isRequest).length
        = (if s.currentProject = "" then 0 else 1) ∧
      (TrainingWizard.startTraining response s).2.count .onTrainingStarted
        = (if s.currentProject ≠ "" ∧ response = .ok then 1 else 0) ∧
      App.afterWizard (TrainingWizard.startTraining response s).2 app
        = (if s.currentProject ≠ "" ∧ response = .ok then App.onTrainingStarted app
           else app) ∧
      (TrainingWizard.startTraining response s).1
        = (if s.currentProject = "" then s else { s with isStarting := false })) ∧
    (((TrainingWizard.continueTraining response s).2.filter WizardEffect.isRequest).length
        = (if s.currentProject = "" then 0 else 1) ∧
      (TrainingWizard.continueTraining response s).2.count .onTrainingStarted
        = (if s.currentProject ≠ "" ∧ response = .ok then 1 else 0) ∧
      App.afterWizard (TrainingWizard.continueTraining response s).2 app
        = (if s.currentProject ≠ "" ∧ response = .ok then App.onTrainingStarted app
           else app) ∧
      (TrainingWizard.continueTraining response s).1
        = (if s.currentProject = "" then s else { s with isStarting := false })) := by
  by_cases hp : s.currentProject = ""
  · simp [TrainingWizard.startTraining, TrainingWizard.continueTraining, hp,
      WizardEffect.isRequest, App.afterWizard]
  · cases response <;>
      simp [TrainingWizard.startTraining, TrainingWizard.continueTraining, hp,
        WizardEffect.isRequest, App.afterWizard]

/-! ## C15 : the number of open connections -/

/-- C15, where the code differs from the claim: when `stories` and then `poems` are
selected before the first model is loaded and both loads succeed, each `connectWebSocket`
runs in a render whose `wsConnection` is null, so neither closes anything: two sockets
are created, no `close()` is called, and both connections are open at the end. -/
theorem C15_two_connections_open :
    Scenario.replaced.opened = [Scenario.first, Scenario.second] ∧
      Scenario.replaced.effects.filter Effect.isCreate
        = [.create Scenario.first, .create Scenario.second] ∧
      Scenario.replaced.effects.filter Effect.isClose = [] ∧
      Scenario.replaced.ui.wsConnection = some Scenario.second := by
  decide

/-! ## C16 : events of a connection that was replaced -/

/-- C16 as stated fails: in `Scenario.replaced` the stored connection is the second
socket and the first is still open; when the first socket closes, the stored connection
becomes null, and a token message of the first socket is appended to the buffer. -/
theorem C16_older_connection_events_are_applied :
    Scenario.replaced.ui.wsConnection = some Scenario.second ∧
      (Session.step (.socketClose Scenario.first) Scenario.replaced).ui.wsConnection
        = none ∧
      (Session.step (.socketClose Scenario.first) Scenario.replaced).opened
        = [Scenario.second] ∧
      (Session.step (.socketMessage Scenario.first (.ofToken "stale") 20)
          Scenario.replaced).ui.streamingResponse = "stale" ∧
      Scenario.replaced.ui.streamingResponse = "" := by
  decide

/-- C16 as amended: no handler looks at which connection delivered the event.  In every
state, for every open socket of the session, whichever socket is the stored connection
(so also when a newer one has replaced it), the close and the error callback of the
socket set the stored connection to null, and a message of the socket is handled by
`onmessage` like any other: a token message appends its text to the buffer,
`message_received` empties the buffer and sets `isLoading`. -/
theorem C16_older_connection_events_handled_alike (s : Session) (older : WebSocket)
    (data : ServerMessage) (now : Nat) (holder : older ∈ s.opened) :
    (Session.step (.socketClose older) s).ui.wsConnection = none ∧
      (Session.step (.socketError older) s).ui.wsConnection = none ∧
      (Session.step (.socketMessage older data now) s).ui = onmessage older data now s.ui ∧
      (Session.step (.socketMessage older { data with type := some "token" } now)
          s).ui.streamingResponse
        = s.ui.streamingResponse ++ tokenText data ∧
      (Session.step (.socketMessage older { data with type := some "message_received" } now)
          s).ui
        = { s.ui with isLoading := true, streamingResponse := "" } := by
  refine ⟨?_, ?_, ?_, ?_, ?_⟩
  · simp [Session.step, holder, onclose]
  · simp [Session.step, holder, onerror]
  · simp [Session.step, holder]
  · simp [Session.step, holder, onmessage, tokenText]
  · simp [Session.step, holder, onmessage]

theorem C16_older_connection_events_handled_alike_witness :
    (Session.step (.socketClose Scenario.first) Scenario.replaced).ui.wsConnection = none ∧
      (Session.step (.socketError Scenario.first) Scenario.replaced).ui.wsConnection
        = none ∧
      (Session.step (.socketMessage Scenario.first (.ofToken "stale") 20)
          Scenario.replaced).ui
        = onmessage Scenario.first (.ofToken "stale") 20 Scenario.replaced.ui ∧
      (Session.step (.socketMessage Scenario.first
          { ServerMessage.ofToken "stale" with type := some "token" } 20)
          Scenario.replaced).ui.streamingResponse
        = Scenario.replaced.ui.streamingResponse ++ tokenText (.ofToken "stale") ∧
      (Session.step (.socketMessage Scenario.first
          { ServerMessage.ofToken "stale" with type := some "message_received" } 20)
          Scenario.replaced).ui
        = { Scenario.replaced.ui with isLoading := true, streamingResponse := "" } :=
  C16_older_connection_events_handled_alike Scenario.replaced Scenario.first
    (.ofToken "stale") 20 (by decide)

/-! ## C17 : when chat is reachable -/

namespace Session

theorem performOne_ui (s : Session) (effect : Effect) : (performOne s effect).ui = s.ui := by
  cases effect <;> rfl

theorem perform_ui (effects : List Effect) (s : Session) : (perform effects s).ui = s.ui := by
  induction effects generalizing s with
  | nil => rfl
  | cons effect rest ih =>
    show (perform rest (performOne s effect)).ui = s.ui
    rw [ih, performOne_ui]

theorem onmessage_isModelLoaded (ws : WebSocket) (data : ServerMessage) (now : Nat)
    (s : ChatInterface) : (onmessage ws data now s).isModelLoaded = s.isModelLoaded := by
  unfold onmessage
  split_ifs <;> rfl

theorem onmessage_wsConnection (ws : WebSocket) (data : ServerMessage) (now : Nat)
    (s : ChatInterface) : (onmessage ws data now s).wsConnection = s.wsConnection := by
  unfold onmessage
  split_ifs <;> rfl

theorem sendMessage_accepted (s : ChatInterface) (now : Nat)
    (h : (sendMessage s now).2 ≠ []) :
    trim s.inputMessage ≠ "" ∧ s.isLoading = false ∧ s.wsConnection ≠ none := by
  unfold sendMessage at h
  split_ifs at h with hguard
  · exact absurd rfl h
  · simp only [not_or] at hguard
    exact ⟨hguard.1, by simpa using hguard.2.1, hguard.2.2⟩

end Session

namespace Session

theorem step_selectProject (project : String) (s : Session) :
    step (.selectProject project) s =
      if project = s.ui.currentProject then s
      else perform (changeProject project s.ui).2
        { s with ui := (changeProject project s.ui).1
                 loading := if (changeProject project s.ui).2 = [] then s.loading
                            else s.loading ++ [{ s.ui with currentProject := project }] } :=
  rfl

theorem step_clickLoadModel (s : Session) :
    step .clickLoadModel s =
      if loadButtonShown s.ui = true then
        perform (loadModelStart s.ui).2
          { s with ui := (loadModelStart s.ui).1, loading := s.loading ++ [s.ui] }
      else s :=
  rfl

theorem step_loadResponse (index : Nat) (response : LoadResponse) (s : Session) :
    step (.loadResponse index response) s =
      match s.loading[index]? with
      | none => s
      | some r =>
        perform (loadModelFinish r response s.nextId s.ui).2
          { s with ui := (loadModelFinish r response s.nextId s.ui).1
                   loading := s.loading.eraseIdx index } :=
  rfl

theorem step_socketOpen (ws : WebSocket) (s : Session) :
    step (.socketOpen ws) s =
      if ws ∈ s.connecting then
        { s with connecting := s.connecting.erase ws, opened := s.opened ++ [ws],
                 ui := onopen ws s.ui }
      else s :=
  rfl

theorem step_socketClose (ws : WebSocket) (s : Session) :
    step (.socketClose ws) s =
      if ws ∈ s.connecting ∨ ws ∈ s.opened ∨ ws ∈ s.closing then
        { s with connecting := s.connecting.erase ws, opened := s.opened.erase ws,
                 closing := s.closing.erase ws, ui := onclose s.ui }
      else s :=
  rfl

theorem step_socketError (ws : WebSocket) (s : Session) :
    step (.socketError ws) s =
      if ws ∈ s.connecting ∨ ws ∈ s.opened then { s with ui := onerror s.ui } else s :=
  rfl

theorem step_socketMessage (ws : WebSocket) (data : ServerMessage) (now : Nat)
    (s : Session) :
    step (.socketMessage ws data now) s =
      if ws ∈ s.opened then { s with ui := onmessage ws data now s.ui } else s :=
  rfl

theorem step_typeInput (text : String) (s : Session) :
    step (.typeInput text) s =
      if inputEnabled s.ui = true then { s with ui := setInputMessage text s.ui } else s :=
  rfl

theorem step_send (now : Nat) (s : Session) :
    step (.send now) s =
      perform (sendMessage s.ui now).2 { s with ui := (sendMessage s.ui now).1 } :=
  rfl

theorem perform_cons (effect : Effect) (rest : List Effect) (s : Session) :
    perform (effect :: rest) s = perform rest (performOne s effect) := rfl

theorem perform_sockets (effects : List Effect) (s : Session)
    (h : ∀ e ∈ effects, e.isCreate = false ∧ e.isClose = false) :
    (perform effects s).connecting = s.connecting ∧ (perform effects s).opened = s.opened := by
  induction effects generalizing s with
  | nil => exact ⟨rfl, rfl⟩
  | cons effect rest ih =>
    have hrest := ih (performOne s effect) (fun e he => h e (List.mem_cons_of_mem _ he))
    have hone := h effect (List.mem_cons_self _ _)
    rw [perform_cons, hrest.1, hrest.2]
    cases effect <;> simp_all [performOne, Effect.isCreate, Effect.isClose]

theorem inv_of_same (s t : Session) (hm : t.ui.isModelLoaded = s.ui.isModelLoaded)
    (hw : t.ui.wsConnection = s.ui.wsConnection) (hc : t.connecting = s.connecting)
    (ho : t.opened = s.opened) (h : Inv s) : Inv t := by
  unfold Inv at h ⊢
  rw [hm, hw, hc, ho]
  exact h

theorem inv_perform (effects : List Effect) (s t : Session)
    (heff : ∀ e ∈ effects, e.isCreate = false ∧ e.isClose = false)
    (hm : t.ui.isModelLoaded = s.ui.isModelLoaded)
    (hw : t.ui.wsConnection = s.ui.wsConnection) (hc : t.connecting = s.connecting)
    (ho : t.opened = s.opened) (h : Inv s) : Inv (perform effects t) := by
  obtain ⟨hc1, ho1⟩ := perform_sockets effects t heff
  exact inv_of_same s _ (by rw [perform_ui]; exact hm) (by rw [perform_ui]; exact hw)
    (hc1.trans hc) (ho1.trans ho) h

theorem changeProject_state (project : String) (u : ChatInterface) :
    (changeProject project u).1.isModelLoaded = u.isModelLoaded ∧
      (changeProject project u).1.wsConnection = u.wsConnection ∧
      ∀ e ∈ (changeProject project u).2, e.isCreate = false ∧ e.isClose = false := by
  unfold changeProject loadModelStart
  by_cases h : project ≠ "" ∧ u.isModelLoaded = false
  · have hp : ¬ project = "" := h.1
    simp [h, hp, Effect.isCreate, Effect.isClose]
  · simp [h]

theorem loadModelStart_state (u : ChatInterface) :
    (loadModelStart u).1.isModelLoaded = u.isModelLoaded ∧
      (loadModelStart u).1.wsConnection = u.wsConnection ∧
      ∀ e ∈ (loadModelStart u).2, e.isCreate = false ∧ e.isClose = false := by
  unfold loadModelStart
  split_ifs <;> simp [Effect.isCreate, Effect.isClose]

theorem sendMessage_state (u : ChatInterface) (now : Nat) :
    (sendMessage u now).1.isModelLoaded = u.isModelLoaded ∧
      (sendMessage u now).1.wsConnection = u.wsConnection ∧
      ∀ e ∈ (sendMessage u now).2, e.isCreate = false ∧ e.isClose = false := by
  unfold sendMessage
  split_ifs
  · simp
  · cases hws : u.wsConnection <;> simp_all [Effect.isCreate, Effect.isClose]

theorem loadModelFinish_failed (r u : ChatInterface) (response : LoadResponse) (id : Nat)
    (h : response ≠ .ok) :
    (loadModelFinish r response id u).1 = { u with isLoading := false } ∧
      ∀ e ∈ (loadModelFinish r response id u).2, e.isCreate = false ∧ e.isClose = false := by
  cases response with
  | ok => exact absurd rfl h
  | notOk detail => simp [loadModelFinish, Effect.isCreate, Effect.isClose]
  | failed message => simp [loadModelFinish, Effect.isCreate, Effect.isClose]

theorem loadModelFinish_ok (r u : ChatInterface) (id : Nat) :
    (loadModelFinish r .ok id u).1 = { u with isModelLoaded := true, isLoading := false } :=
  rfl

theorem step_inv (e : Event) (s : Session) (h : Inv s) : Inv (step e s) := by
  cases e with
  | selectProject project =>
    rw [step_selectProject]
    by_cases hsame : project = s.ui.currentProject
    · rw [if_pos hsame]
      exact h
    · rw [if_neg hsame]
      obtain ⟨hm, hw, heff⟩ := changeProject_state project s.ui
      exact inv_perform _ s _ heff hm hw rfl rfl h
  | clickLoadModel =>
    rw [step_clickLoadModel]
    by_cases hshown : loadButtonShown s.ui = true
    · rw [if_pos hshown]
      obtain ⟨hm, hw, heff⟩ := loadModelStart_state s.ui
      exact inv_perform _ s _ heff hm hw rfl rfl h
    · rw [if_neg hshown]
      exact h
  | loadResponse index response =>
    rw [step_loadResponse]
    cases hr : s.loading[index]? with
    | none => exact h
    | some r =>
      by_cases hok : response = .ok
      · subst hok
        intro hl
        rw [perform_ui] at hl
        simp [loadModelFinish_ok] at hl
      · obtain ⟨hst, heff⟩ := loadModelFinish_failed r s.ui response s.nextId hok
        exact inv_perform _ s _ heff (by simp [hst]) (by simp [hst]) rfl rfl h
  | socketOpen ws =>
    rw [step_socketOpen]
    by_cases hmem : ws ∈ s.connecting
    · rw [if_pos hmem]
      intro hl
      have hl0 : s.ui.isModelLoaded = false := hl
      have hnone := (h hl0).1
      rw [hnone] at hmem
      simp at hmem
    · rw [if_neg hmem]
      exact h
  | socketClose ws =>
    rw [step_socketClose]
    by_cases hmem : ws ∈ s.connecting ∨ ws ∈ s.opened ∨ ws ∈ s.closing
    · rw [if_pos hmem]
      intro hl
      have hl0 : s.ui.isModelLoaded = false := hl
      obtain ⟨h1, h2, _⟩ := h hl0
      simp [h1, h2, onclose]
    · rw [if_neg hmem]
      exact h
  | socketError ws =>
    rw [step_socketError]
    by_cases hmem : ws ∈ s.connecting ∨ ws ∈ s.opened
    · rw [if_pos hmem]
      intro hl
      have hl0 : s.ui.isModelLoaded = false := hl
      obtain ⟨h1, h2, _⟩ := h hl0
      exact ⟨h1, h2, rfl⟩
    · rw [if_neg hmem]
      exact h
  | socketMessage ws data now =>
    rw [step_socketMessage]
    by_cases hmem : ws ∈ s.opened
    · rw [if_pos hmem]
      exact inv_of_same s _ (onmessage_isModelLoaded ws data now s.ui)
        (onmessage_wsConnection ws data now s.ui) rfl rfl h
    · rw [if_neg hmem]
      exact h
  | typeInput text =>
    rw [step_typeInput]
    by_cases hen : inputEnabled s.ui = true
    · rw [if_pos hen]
      exact inv_of_same s _ rfl rfl rfl rfl h
    · rw [if_neg hen]
      exact h
  | send now =>
    rw [step_send]
    obtain ⟨hm, hw, heff⟩ := sendMessage_state s.ui now
    exact inv_perform _ s _ heff hm hw rfl rfl h

theorem run_inv (events : List Event) (s : Session) (h : Inv s) : Inv (run events s) := by
  induction events generalizing s with
  | nil => exact h
  | cons e rest ih => exact ih (step e s) (step_inv e s h)

theorem initial_inv : Inv initial := by
  intro _
  exact ⟨rfl, rfl, rfl⟩

end Session

namespace App

theorem poll_currentProject (polls : List TrainingStatus) (s : App) :
    (poll polls s).currentProject = s.currentProject := by
  induction polls generalizing s with
  | nil => rfl
  | cons data rest ih =>
    show (poll rest (onSuccess data s)).currentProject = s.currentProject
    rw [ih, onSuccess_currentProject]

end App

/-- C17 as stated fails: with `stories` selected and a running, not completed training
as the last observed status, the Chat tab is enabled and the project change issues a
load-model request; and in the session `Scenario.firstTurn`, in which no training status
plays any part, the load succeeds and `sendMessage` is accepted. -/
theorem C17_chat_reachable_without_completed_training :
    statusRunning.is_training = some true ∧ App.completed statusRunning = false ∧
      App.chatTabDisabled
          (App.poll [statusRunning] (App.set App.initial (.setCurrentProject "stories")))
        = false ∧
      (changeProject "stories" (ChatInterface.initial "")).2 = [.fetchLoadModel "stories"] ∧
      (Session.run Scenario.firstTurn Session.initial).effects
        = [.fetchLoadModel "stories", .create Scenario.first,
           .send Scenario.first
             { message := "Tell me a story", temperature := 7, max_tokens := 150 }] := by
  decide

/-- C17 as amended: whatever training status was last observed, the Chat tab is enabled
exactly when a project is selected, and a project change issues a load-model request
exactly when the new project is not empty and no model is loaded; and in every reachable
state in which `sendMessage` is accepted the model-load handshake has succeeded:
`isModelLoaded` is true. -/
theorem C17_chat_reachable_when_project_selected (events : List Event) (now : Nat)
    (polls : List TrainingStatus) (app : App) (project : String) (ui : ChatInterface)
    (haccepted : (sendMessage (Session.run events Session.initial).ui now).2 ≠ []) :
    (Session.run events Session.initial).ui.isModelLoaded = true ∧
      (App.chatTabDisabled (App.poll polls app) = false ↔ app.currentProject ≠ "") ∧
      ((changeProject project ui).2 = [.fetchLoadModel project]
        ↔ project ≠ "" ∧ ui.isModelLoaded = false) := by
  refine ⟨?_, ?_, ?_⟩
  · have hinv := Session.run_inv events Session.initial Session.initial_inv
    have hws := (Session.sendMessage_accepted _ now haccepted).2.2
    cases hl : (Session.run events Session.initial).ui.isModelLoaded with
    | true => rfl
    | false => exact absurd (hinv hl).2.2 hws
  · simp [App.chatTabDisabled, App.poll_currentProject]
  · unfold changeProject loadModelStart
    by_cases h : project ≠ "" ∧ ui.isModelLoaded = false
    · have hp : ¬ project = "" := h.1
      simp [h, hp]
    · have h2 : ¬ (¬ project = "" ∧ ui.isModelLoaded = false) := h
      simp [h, h2]

theorem C17_chat_reachable_when_project_selected_witness :
    (Session.run Scenario.secondInput Session.initial).ui.isModelLoaded = true ∧
      (App.chatTabDisabled (App.poll [statusRunning] appTraining) = false
        ↔ appTraining.currentProject ≠ "") ∧
      ((changeProject "poems" Scenario.ready).2 = [.fetchLoadModel "poems"]
        ↔ "poems" ≠ "" ∧ Scenario.ready.isModelLoaded = false) :=
  C17_chat_reachable_when_project_selected Scenario.secondInput 11 [statusRunning]
    appTraining "poems" Scenario.ready (by decide)

/-! ## C18 : a load attempt -/

/-- C18: for a load attempt from a render `r` with a project, whose response arrives in
a state `s` in which the project is still selected and the model is not loaded:
`loadModel` sets `isLoading` and issues the request; afterwards the model is marked
loaded exactly when the response is ok, exactly one socket is created when it is ok and
none otherwise, `isLoading` is false in every case, and the button `Load Model` is shown
again exactly when the response is not ok.  With an empty project `loadModel` changes
nothing and issues no request. -/
theorem C18_load_attempt (r s : ChatInterface) (response : LoadResponse) (id : Nat)
    (hproject : r.currentProject ≠ "") (hselected : s.currentProject ≠ "")
    (hnotLoaded : s.isModelLoaded = false) :
    loadModelStart r = ({ r with isLoading := true }, [.fetchLoadModel r.currentProject]) ∧
      ((loadModelFinish r response id s).1.isModelLoaded = true ↔ response = .ok) ∧
      ((loadModelFinish r response id s).2.filter Effect.isCreate).length
        = (if response = .ok then 1 else 0) ∧
      (loadModelFinish r response id s).1.isLoading = false ∧
      (loadButtonShown (loadModelFinish r response id s).1 = true ↔ response ≠ .ok) ∧
      loadModelStart { r with currentProject := "" } = ({ r with currentProject := "" }, []) := by
  refine ⟨by simp [loadModelStart, hproject], ?_, ?_, ?_, ?_, by simp [loadModelStart]⟩
  · cases response <;> simp [loadModelFinish, hnotLoaded]
  · cases response with
    | ok =>
      cases hws : r.wsConnection <;>
        simp [loadModelFinish, connectWebSocket, hws, Effect.isCreate]
    | notOk detail => simp [loadModelFinish, Effect.isCreate]
    | failed message => simp [loadModelFinish, Effect.isCreate]
  · cases response <;> simp [loadModelFinish]
  · cases response <;> simp [loadModelFinish, loadButtonShown, hnotLoaded, hselected]

theorem C18_load_attempt_witness :
    loadModelStart (ChatInterface.initial "stories")
        = ({ ChatInterface.initial "stories" with isLoading := true },
           [.fetchLoadModel (ChatInterface.initial "stories").currentProject]) ∧
      ((loadModelFinish (ChatInterface.initial "stories") (.notOk (some "no checkpoint")) 0
          (loadModelStart (ChatInterface.initial "stories")).1).1.isModelLoaded = true
        ↔ LoadResponse.notOk (some "no checkpoint") = .ok) ∧
      ((loadModelFinish (ChatInterface.initial "stories") (.notOk (some "no checkpoint")) 0
          (loadModelStart (ChatInterface.initial "stories")).1).2.filter Effect.isCreate).length
        = (if LoadResponse.notOk (some "no checkpoint") = .ok then 1 else 0) ∧
      (loadModelFinish (ChatInterface.initial "stories") (.notOk (some "no checkpoint")) 0
          (loadModelStart (ChatInterface.initial "stories")).1).1.isLoading = false ∧
      (loadButtonShown (loadModelFinish (ChatInterface.initial "stories")
          (.notOk (some "no checkpoint")) 0
          (loadModelStart (ChatInterface.initial "stories")).1).1 = true
        ↔ LoadResponse.notOk (some "no checkpoint") ≠ .ok) ∧
      loadModelStart { ChatInterface.initial "stories" with currentProject := "" }
        = ({ ChatInterface.initial "stories" with currentProject := "" }, []) :=
  C18_load_attempt (ChatInterface.initial "stories")
    (loadModelStart (ChatInterface.initial "stories")).1 (.notOk (some "no checkpoint")) 0
    (by decide) (by decide) (by decide)

/-! ## C21 : after an unexpected closure -/

namespace Session

theorem perform_nil (s : Session) : perform [] s = s := rfl

theorem changeProject_loaded (project : String) (u : ChatInterface)
    (h : u.isModelLoaded = true) :
    changeProject project u = ({ u with currentProject := project }, []) := by
  simp [changeProject, h]

theorem sendMessage_disconnected (u : ChatInterface) (now : Nat)
    (h : u.wsConnection = none) : sendMessage u now = (u, []) := by
  simp [sendMessage, h]

theorem step_disconnected (e : Event) (s : Session) (h : Disconnected s) :
    Disconnected (step e s) ∧ (step e s).effects = s.effects := by
  obtain ⟨hloaded, hloading, hconnecting, hopened, hws⟩ := h
  cases e with
  | selectProject project =>
    rw [step_selectProject]
    by_cases hsame : project = s.ui.currentProject
    · rw [if_pos hsame]
      exact ⟨⟨hloaded, hloading, hconnecting, hopened, hws⟩, rfl⟩
    · rw [if_neg hsame, changeProject_loaded project s.ui hloaded]
      exact ⟨⟨hloaded, hloading, hconnecting, hopened, hws⟩, rfl⟩
  | clickLoadModel =>
    rw [step_clickLoadModel]
    have hshown : ¬ loadButtonShown s.ui = true := by simp [loadButtonShown, hloaded]
    rw [if_neg hshown]
    exact ⟨⟨hloaded, hloading, hconnecting, hopened, hws⟩, rfl⟩
  | loadResponse index response =>
    rw [step_loadResponse, hloading]
    exact ⟨⟨hloaded, hloading, hconnecting, hopened, hws⟩, rfl⟩
  | socketOpen ws =>
    rw [step_socketOpen]
    have hmem : ¬ ws ∈ s.connecting := by simp [hconnecting]
    rw [if_neg hmem]
    exact ⟨⟨hloaded, hloading, hconnecting, hopened, hws⟩, rfl⟩
  | socketClose ws =>
    rw [step_socketClose]
    by_cases hmem : ws ∈ s.connecting ∨ ws ∈ s.opened ∨ ws ∈ s.closing
    · rw [if_pos hmem]
      exact ⟨⟨hloaded, hloading, by simp [hconnecting], by simp [hopened], rfl⟩, rfl⟩
    · rw [if_neg hmem]
      exact ⟨⟨hloaded, hloading, hconnecting, hopened, hws⟩, rfl⟩
  | socketError ws =>
    rw [step_socketError]
    have hmem : ¬ (ws ∈ s.connecting ∨ ws ∈ s.opened) := by simp [hconnecting, hopened]
    rw [if_neg hmem]
    exact ⟨⟨hloaded, hloading, hconnecting, hopened, hws⟩, rfl⟩
  | socketMessage ws data now =>
    rw [step_socketMessage]
    have hmem : ¬ ws ∈ s.opened := by simp [hopened]
    rw [if_neg hmem]
    exact ⟨⟨hloaded, hloading, hconnecting, hopened, hws⟩, rfl⟩
  | typeInput text =>
    rw [step_typeInput]
    by_cases hen : inputEnabled s.ui = true
    · rw [if_pos hen]
      exact ⟨⟨hloaded, hloading, hconnecting, hopened, hws⟩, rfl⟩
    · rw [if_neg hen]
      exact ⟨⟨hloaded, hloading, hconnecting, hopened, hws⟩, rfl⟩
  | send now =>
    rw [step_send, sendMessage_disconnected s.ui now hws]
    exact ⟨⟨hloaded, hloading, hconnecting, hopened, hws⟩, rfl⟩

theorem run_disconnected (events : List Event) (s : Session) (h : Disconnected s) :
    Disconnected (run events s) ∧ (run events s).effects = s.effects := by
  induction events generalizing s with
  | nil => exact ⟨h, rfl⟩
  | cons e rest ih =>
    obtain ⟨h1, e1⟩ := step_disconnected e s h
    obtain ⟨h2, e2⟩ := ih (step e s) h1
    exact ⟨h2, e2.trans e1⟩

theorem socketClose_disconnected (s : Session) (ws : WebSocket)
    (hloaded : s.ui.isModelLoaded = true) (hloading : s.loading = [])
    (hconnecting : s.connecting = []) (hopened : s.opened = [ws]) :
    Disconnected (step (.socketClose ws) s) ∧ (step (.socketClose ws) s).effects = s.effects := by
  rw [step_socketClose]
  have hmem : ws ∈ s.connecting ∨ ws ∈ s.opened ∨ ws ∈ s.closing := by simp [hopened]
  rw [if_pos hmem]
  exact ⟨⟨hloaded, hloading, by simp [hconnecting], by simp [hopened], rfl⟩, rfl⟩

end Session

/-- C21 as stated fails: in `Scenario.connected` the model is loaded and the one socket
is open; when that socket is closed by the other side the stored connection becomes
null, no socket is created and no request is made, and no sequence of events
afterwards reaches a state in which `sendMessage` is accepted. -/
theorem C21_no_reconnect_after_closure :
    Scenario.connected.ui.isModelLoaded = true ∧
      Scenario.connected.opened = [Scenario.first] ∧
      Scenario.disconnected.ui.wsConnection = none ∧
      Scenario.disconnected.connecting = [] ∧
      Scenario.disconnected.effects = Scenario.connected.effects ∧
      ¬ ∃ events now,
        (sendMessage (Session.run events Scenario.disconnected).ui now).2 ≠ [] := by
  refine ⟨by decide, by decide, by decide, by decide, by decide, ?_⟩
  rintro ⟨events, now, haccepted⟩
  have hd : Session.Disconnected Scenario.disconnected :=
    ⟨by decide, by decide, by decide, by decide, by decide⟩
  have hrun := (Session.run_disconnected events Scenario.disconnected hd).1
  exact haccepted (by rw [Session.sendMessage_disconnected _ now hrun.2.2.2.2])

/-- C21 as amended: for every state with a loaded model and one open connection and
nothing else outstanding, an unexpected closure of the socket sets the stored connection
to null and is followed by no reconnect attempt: whatever events follow, the session
creates no socket and makes no request, and `sendMessage` is rejected in every state
that follows. -/
theorem C21_closure_is_final (s : Session) (ws : WebSocket) (events : List Event)
    (now : Nat) (hloaded : s.ui.isModelLoaded = true) (hloading : s.loading = [])
    (hconnecting : s.connecting = []) (hopened : s.opened = [ws]) :
    (Session.step (.socketClose ws) s).ui.wsConnection = none ∧
      (Session.run events (Session.step (.socketClose ws) s)).effects = s.effects ∧
      (Session.run events (Session.step (.socketClose ws) s)).connecting = [] ∧
      (Session.run events (Session.step (.socketClose ws) s)).opened = [] ∧
      sendMessage (Session.run events (Session.step (.socketClose ws) s)).ui now
        = ((Session.run events (Session.step (.socketClose ws) s)).ui, []) := by
  obtain ⟨hd, he⟩ := Session.socketClose_disconnected s ws hloaded hloading hconnecting hopened
  obtain ⟨hrun, herun⟩ := Session.run_disconnected events _ hd
  exact ⟨hd.2.2.2.2, herun.trans he, hrun.2.2.1, hrun.2.2.2.1,
    Session.sendMessage_disconnected _ now hrun.2.2.2.2⟩

theorem C21_closure_is_final_witness :
    (Session.step (.socketClose Scenario.first) Scenario.connected).ui.wsConnection = none ∧
      (Session.run Scenario.retry
          (Session.step (.socketClose Scenario.first) Scenario.connected)).effects
        = Scenario.connected.effects ∧
      (Session.run Scenario.retry
          (Session.step (.socketClose Scenario.first) Scenario.connected)).connecting = [] ∧
      (Session.run Scenario.retry
          (Session.step (.socketClose Scenario.first) Scenario.connected)).opened = [] ∧
      sendMessage (Session.run Scenario.retry
          (Session.step (.socketClose Scenario.first) Scenario.connected)).ui 31
        = ((Session.run Scenario.retry
            (Session.step (.socketClose Scenario.first) Scenario.connected)).ui, []) :=
  C21_closure_is_final Scenario.connected Scenario.first Scenario.retry 31
    (by decide) (by decide) (by decide) (by decide)

/-! ## C22 : from Completed to Running -/

namespace Monitor

theorem phase_running_iff (m : Monitor) : m.phase = .running ↔ m.app.isTraining = some true := by
  unfold phase
  by_cases h : m.app.isTraining = some true
  · simp [h]
  · rw [if_neg h]
    constructor
    · intro hp
      cases hs : m.trainingStatus with
      | none => simp [hs] at hp
      | some data =>
        simp only [hs] at hp
        split_ifs at hp
    · intro hp
      exact absurd hp h

theorem not_training_of_completed (m : Monitor) (h : m.phase = .completed) :
    m.app.isTraining ≠ some true := by
  intro ht
  have := (phase_running_iff m).mpr ht
  rw [this] at h
  exact absurd h (by decide)

theorem afterWizard_start (response : ApiResponse) (w : TrainingWizard) (app : App) :
    (App.afterWizard (TrainingWizard.startTraining response w).2 app).isTraining
      = (if w.currentProject ≠ "" ∧ response = .ok then some true else app.isTraining) := by
  by_cases hp : w.currentProject = ""
  · simp [TrainingWizard.startTraining, hp, App.afterWizard]
  · cases response <;>
      simp [TrainingWizard.startTraining, hp, App.afterWizard, App.onTrainingStarted,
        App.onTrainingStartedCalls, App.set]

theorem afterWizard_continue (response : ApiResponse) (w : TrainingWizard) (app : App) :
    (App.afterWizard (TrainingWizard.continueTraining response w).2 app).isTraining
      = (if w.currentProject ≠ "" ∧ response = .ok then some true else app.isTraining) := by
  by_cases hp : w.currentProject = ""
  · simp [TrainingWizard.continueTraining, hp, App.afterWizard]
  · cases response <;>
      simp [TrainingWizard.continueTraining, hp, App.afterWizard, App.onTrainingStarted,
        App.onTrainingStartedCalls, App.set]

end Monitor

/-- C22 as stated fails: in `Scenario.trained` the phase is Completed, and both a
start-training action that the backend accepts and a poll response that reports a
running training make it Running; neither is a continue action. -/
theorem C22_start_and_poll_leave_completed :
    Scenario.trained.phase = .completed ∧
      (Monitor.step (.startTraining .ok) Scenario.trained).phase = .running ∧
      (Monitor.step (.poll statusRunning) Scenario.trained).phase = .running := by
  decide

/-- C22 as amended: from a state whose phase is Completed, an event makes the phase
Running exactly when it is a poll response that reports `is_training: true`, or a
start-training or a continue-training action with a project selected that the backend
answers ok; every other event leaves the phase other than Running. -/
theorem C22_completed_to_running (m : Monitor) (e : MonitorEvent)
    (hcompleted : m.phase = .completed) :
    (Monitor.step e m).phase = .running ↔ Monitor.startsTraining e m := by
  have hnot := Monitor.not_training_of_completed m hcompleted
  rw [Monitor.phase_running_iff]
  cases e with
  | poll data =>
    show (App.onSuccess data m.app).isTraining = some true ↔ data.is_training = some true
    rw [App.onSuccess_isTraining]
  | startTraining response =>
    show (App.afterWizard (TrainingWizard.startTraining response
        { m.wizard with currentProject := m.app.currentProject }).2 m.app).isTraining
          = some true ↔ m.app.currentProject ≠ "" ∧ response = .ok
    rw [Monitor.afterWizard_start]
    by_cases h : m.app.currentProject ≠ "" ∧ response = .ok
    · simp [h]
    · simp only [if_neg h]
      exact ⟨fun ht => absurd ht hnot, fun hh => absurd hh h⟩
  | continueTraining response =>
    show (App.afterWizard (TrainingWizard.continueTraining response
        { m.wizard with currentProject := m.app.currentProject }).2 m.app).isTraining
          = some true ↔ m.app.currentProject ≠ "" ∧ response = .ok
    rw [Monitor.afterWizard_continue]
    by_cases h : m.app.currentProject ≠ "" ∧ response = .ok
    · simp [h]
    · simp only [if_neg h]
      exact ⟨fun ht => absurd ht hnot, fun hh => absurd hh h⟩

theorem C22_completed_to_running_witness :
    (Monitor.step (.startTraining .ok) Scenario.trained).phase = .running
      ↔ Monitor.startsTraining (.startTraining .ok) Scenario.trained :=
  C22_completed_to_running Scenario.trained (.startTraining .ok) (by decide)

/-! ## C23 : the ETA text -/

/-- The hours that `formatTime` prints are the whole hours, plus one when the remaining
minutes are 30 or more. -/
theorem mathRound_sixty (minutes : Nat) :
    mathRound minutes 60 = minutes / 60 + (if minutes % 60 < 30 then 0 else 1) := by
  unfold mathRound
  split_ifs <;> omega

/-- C23, where the code differs from the claim: for 90 minutes `formatTime` returns
`2h 30m`, which stands for 150 minutes, not `1h 30m`; the hours are rounded to the
nearest whole number while the minutes are the remainder.  Below 60 minutes the text is
the number of minutes, as for 45. -/
theorem C23_formatTime_rounds_hours :
    formatTime 90 = "2h 30m" ∧ formatTime 90 ≠ "1h 30m" ∧ formatTime 45 = "45m" := by
  decide

/-! ## C24 : the state after an upload -/

namespace DataUpload

theorem uploadLoop_requests (projectSlug : String) (respond : Nat → ApiResponse)
    (files : List File) (i : Nat) :
    ∃ sent : List File, (uploadLoop projectSlug respond i files).1
      = sent.map (UploadEffect.fetchUpload projectSlug) := by
  induction files generalizing i with
  | nil => exact ⟨[], rfl⟩
  | cons file rest ih =>
    cases hr : respond i with
    | ok =>
      obtain ⟨sent, hs⟩ := ih (i + 1)
      exact ⟨file :: sent, by simp [uploadLoop, hr, hs]⟩
    | notOk detail => exact ⟨[file], by simp [uploadLoop, hr]⟩
    | failed message => exact ⟨[file], by simp [uploadLoop, hr]⟩

theorem uploadLoop_none_iff (projectSlug : String) (respond : Nat → ApiResponse)
    (files : List File) (i : Nat) :
    (uploadLoop projectSlug respond i files).2 = none
      ↔ ∀ j, j < files.length → respond (i + j) = .ok := by
  induction files generalizing i with
  | nil => simp [uploadLoop]
  | cons file rest ih =>
    cases hr : respond i with
    | ok =>
      simp only [uploadLoop, hr, ih (i + 1), List.length_cons]
      constructor
      · intro h j hj
        cases j with
        | zero => simpa using hr
        | succ n =>
          have := h n (by omega)
          rwa [show i + 1 + n = i + (n + 1) by omega] at this
      · intro h j hj
        have := h (j + 1) (by omega)
        rwa [show i + (j + 1) = i + 1 + j by omega] at this
    | notOk detail =>
      simp only [uploadLoop, hr]
      constructor
      · intro h
        exact absurd h (by simp)
      · intro h
        have := h 0 (by simp)
        simp [hr] at this
    | failed message =>
      simp only [uploadLoop, hr]
      constructor
      · intro h
        exact absurd h (by simp)
      · intro h
        have := h 0 (by simp)
        simp [hr] at this

theorem afterUpload_requests (projectSlug : String) (sent : List File)
    (tail : List UploadEffect) (app : App) :
    App.afterUpload (sent.map (.fetchUpload projectSlug) ++ tail) app
      = App.afterUpload tail app := by
  induction sent with
  | nil => rfl
  | cons file rest ih => simpa [App.afterUpload] using ih

end DataUpload

/-- C24: `uploadFiles` changes the current project to the entered slug, invokes
`onDataUploaded` (once) and clears the selected files when the project name is not
blank, the file list is not empty and every upload returned ok; in every other case (a
refused upload, a blank name, an empty list) the current project, the active tab and the
selected files are unchanged and neither callback is invoked; and whenever uploads were
attempted the uploading flag is false afterwards. -/
theorem C24_upload_all_or_nothing (respond : Nat → ApiResponse) (s : DataUpload)
    (app : App) :
    ((ChatInterface.trim s.projectSlug ≠ "" ∧ s.files ≠ [] ∧
        ∀ i, i < s.files.length → respond i = .ok) →
      (DataUpload.uploadFiles respond s).1 = { s with files := [], uploading := false } ∧
        App.afterUpload (DataUpload.uploadFiles respond s).2 app
          = { app with currentProject := s.projectSlug, activeTab := .train } ∧
        (DataUpload.uploadFiles respond s).2.count .onDataUploaded = 1) ∧
    (¬ (ChatInterface.trim s.projectSlug ≠ "" ∧ s.files ≠ [] ∧
        ∀ i, i < s.files.length → respond i = .ok) →
      (DataUpload.uploadFiles respond s).1.files = s.files ∧
        (DataUpload.uploadFiles respond s).1.projectSlug = s.projectSlug ∧
        App.afterUpload (DataUpload.uploadFiles respond s).2 app = app ∧
        (DataUpload.uploadFiles respond s).2.count .onDataUploaded = 0 ∧
        ∀ project, (DataUpload.uploadFiles respond s).2.count (.onProjectChange project) = 0) ∧
    ((ChatInterface.trim s.projectSlug ≠ "" ∧ s.files ≠ []) →
      (DataUpload.uploadFiles respond s).1.uploading = false) := by
  by_cases hslug : ChatInterface.trim s.projectSlug = ""
  · simp [DataUpload.uploadFiles, hslug, App.afterUpload]
  by_cases hfiles : s.files = []
  · simp [DataUpload.uploadFiles, hslug, hfiles, App.afterUpload]
  have hlen : ¬ s.files.length = 0 := fun h => hfiles (List.length_eq_zero.mp h)
  obtain ⟨sent, hsent⟩ := DataUpload.uploadLoop_requests s.projectSlug respond s.files 0
  have hiff := DataUpload.uploadLoop_none_iff s.projectSlug respond s.files 0
  simp only [Nat.zero_add] at hiff
  have hcount : ∀ (e : UploadEffect), (∀ f, e ≠ .fetchUpload s.projectSlug f) →
      (sent.map (UploadEffect.fetchUpload s.projectSlug)).count e = 0 := by
    intro e he
    rw [List.count_eq_zero]
    intro hmem
    obtain ⟨f, _, hf⟩ := List.mem_map.mp hmem
    exact he f hf.symm
  cases hres : (DataUpload.uploadLoop s.projectSlug respond 0 s.files).2 with
  | none =>
    have hall := hiff.mp hres
    have hpair : DataUpload.uploadLoop s.projectSlug respond 0 s.files
        = (sent.map (.fetchUpload s.projectSlug), none) := by
      rw [← hsent, ← hres]
    refine ⟨fun _ => ?_, fun hnot => absurd ⟨hslug, hfiles, hall⟩ hnot, fun _ => ?_⟩
    · refine ⟨by simp [DataUpload.uploadFiles, hslug, hlen, hpair], ?_, ?_⟩
      · simp only [DataUpload.uploadFiles, hslug, hlen, hpair, if_false]
        rw [DataUpload.afterUpload_requests]
        rfl
      · simp only [DataUpload.uploadFiles, hslug, hlen, hpair, if_false]
        rw [List.count_append, hcount _ (by intro f; simp)]
        simp
    · simp [DataUpload.uploadFiles, hslug, hlen, hpair]
  | some message =>
    have hnotall : ¬ ∀ i, i < s.files.length → respond i = .ok := by
      intro hall
      have := hiff.mpr hall
      rw [hres] at this
      exact absurd this (by simp)
    have hpair : DataUpload.uploadLoop s.projectSlug respond 0 s.files
        = (sent.map (.fetchUpload s.projectSlug), some message) := by
      rw [← hsent, ← hres]
    refine ⟨fun hall => absurd hall.2.2 hnotall, fun _ => ?_, fun _ => ?_⟩
    · refine ⟨by simp [DataUpload.uploadFiles, hslug, hlen, hpair],
        by simp [DataUpload.uploadFiles, hslug, hlen, hpair], ?_, ?_, ?_⟩
      · simp only [DataUpload.uploadFiles, hslug, hlen, hpair, if_false]
        rw [DataUpload.afterUpload_requests]
        rfl
      · simp only [DataUpload.uploadFiles, hslug, hlen, hpair, if_false]
        rw [List.count_append, hcount _ (by intro f; simp)]
        simp
      · intro project
        simp only [DataUpload.uploadFiles, hslug, hlen, hpair, if_false]
        rw [List.count_append, hcount _ (by intro f; simp)]
        simp
    · simp [DataUpload.uploadFiles, hslug, hlen, hpair]

theorem C24_upload_all_or_nothing_witness :
    (DataUpload.uploadFiles acceptAll threeFiles).1
        = { threeFiles with files := [], uploading := false } ∧
      App.afterUpload (DataUpload.uploadFiles acceptAll threeFiles).2 App.initial
        = { App.initial with currentProject := threeFiles.projectSlug, activeTab := .train } ∧
      (DataUpload.uploadFiles acceptAll threeFiles).2.count .onDataUploaded = 1 :=
  (C24_upload_all_or_nothing acceptAll threeFiles App.initial).1
    ⟨by decide, by decide, fun _ _ => rfl⟩

end MakeYourOwnLLM
